import Mathlib

/-!
Verification of the recursive component-composition and geometry engine of the
procedural SVG-scene generator (src/main.py).

Shallow embedding conventions:
* Python's global `random.choice` is modelled by an explicit generator state
  `Rng` (an infinite stream of naturals plus a cursor); `random_choice` picks
  `options[seq idx % len options]` and advances the cursor.  `random.choice`
  on an empty sequence raises IndexError; this is the `Err.emptyOptions` error.
* Exceptions are modelled by `Except Err`; an exception aborts the computation
  and propagates, exactly as in Python.
* Numbers appearing in configuration (sizes, rotations, opacities) are modelled
  as exact rationals; computed geometry coordinates live in `ℝ` (Python floats
  are idealised as exact real arithmetic; the explicit `round(·, 7)` of the
  source is kept as `round7`, using `Int.round`, i.e. round-half-up — Python's
  round-half-to-even differs only on exact ties, which do not arise in any
  statement below).
* Python's bounded call stack is modelled by an explicit `fuel` argument to the
  recursive `draw_component`; exhausting it is `Err.recursionLimit`
  (Python's RecursionError).
* The svgwrite drawing object `dwg` is only a factory for primitives; it is
  dropped, and the produced primitives / groups are the `DrawableNode` tree.
-/

namespace Plurana

/-- State of the pseudo-random generator: a stream of draws and a cursor. -/
structure Rng where
  seq : Nat → Nat
  idx : Nat

/-- Runtime errors of the engine (Python exception kinds). -/
inductive Err where
  /-- IndexError: `random.choice` on an empty sequence. -/
  | emptyOptions
  /-- KeyError: dictionary lookup of an unknown component id. -/
  | keyError (id : String)
  /-- AttributeError: the registry stored `None` for this id
      (unknown component type in `create_component`). -/
  | attributeError
  /-- RecursionError: the call stack (fuel) is exhausted. -/
  | recursionLimit
deriving DecidableEq

/-- `random_choice(options)` (src/main.py line 10–11): uniform choice from a
list; IndexError on an empty list. -/
def random_choice {α : Type} (options : List α) (g : Rng) : Except Err (α × Rng) :=
  match options with
  | [] => .error .emptyOptions
  | o :: os => .ok ((o :: os).getD (g.seq g.idx % (os.length + 1)) o, ⟨g.seq, g.idx + 1⟩)

/-- The four style option sets of a component (`style` mapping in the yaml). -/
structure Style where
  fill_options : List String
  opacity_options : List ℚ
  size_options : List ℚ
  rotation_options : List ℚ

/-- One raw `element_defs` entry, as handed to `create_component`
(src/main.py lines 195–214).  All keys are present; the engine reads the ones
its `type` needs. -/
structure RawDef where
  type : String
  id : String
  style : Style
  vertex_count : List ℕ
  vertex_count_options : List ℕ
  center_elements : List (Option String)
  vertex_elements : List (Option String)

/-- A built component instance.  The `Polygon` / `PolygonGroup` constructors
carry the construction-time random draws of `__init__`
(src/main.py lines 89–93 and 127–132). -/
inductive Component where
  | circle (id : String) (style : Style)
  | rect (id : String) (style : Style)
  | ellipse (id : String) (style : Style)
  | polygon (id : String) (style : Style) (vertex_count : ℕ) (center_element : Option String)
  | polygonGroup (id : String) (style : Style) (vertex_count : ℕ)
      (vertex_elements : Option String) (center_element : Option String)

/-- The style carried by a component instance (`self.style`). -/
def Component.style : Component → Style
  | .circle _ s => s
  | .rect _ s => s
  | .ellipse _ s => s
  | .polygon _ s _ _ => s
  | .polygonGroup _ s _ _ _ => s

/-- A node of the produced scene graph: an svgwrite primitive (with its
optional `rotate(rotation, center)` transform) or a `Group` of nodes in paint
order. -/
inductive DrawableNode where
  | circle (center : ℝ × ℝ) (r : ℚ) (fill : String) (opacity : ℚ)
  | rect (insert : ℝ × ℝ) (size : ℚ × ℚ) (fill : String) (opacity : ℚ)
      (rotation : Option (ℚ × (ℝ × ℝ)))
  | ellipse (center : ℝ × ℝ) (rx ry : ℚ) (fill : String) (opacity : ℚ)
      (rotation : Option (ℚ × (ℝ × ℝ)))
  | polygon (points : List (ℝ × ℝ)) (fill : String) (opacity : ℚ)
      (rotation : Option (ℚ × (ℝ × ℝ)))
  | group (children : List DrawableNode)

/-- The rotation transform attached to a primitive (none for circles/groups). -/
def DrawableNode.rotationOf : DrawableNode → Option (ℚ × (ℝ × ℝ))
  | .rect _ _ _ _ r => r
  | .ellipse _ _ _ _ _ r => r
  | .polygon _ _ _ r => r
  | _ => none

/-- The fill of a primitive (none for groups). -/
def DrawableNode.fillOf : DrawableNode → Option String
  | .circle _ _ f _ => some f
  | .rect _ _ f _ _ => some f
  | .ellipse _ _ _ f _ _ => some f
  | .polygon _ f _ _ => some f
  | .group _ => none

/-- Number of points of a polygon primitive (0 for other nodes). -/
def DrawableNode.pointCount : DrawableNode → ℕ
  | .polygon pts _ _ _ => pts.length
  | _ => 0

/-- `True` exactly for polygon primitives. -/
def DrawableNode.isPolygon : DrawableNode → Prop
  | .polygon _ _ _ _ => True
  | _ => False

/-- The polygon primitive produced by `Polygon.draw`/`PolygonGroup.draw`:
the node itself when bare, or the first child of the returned group. -/
def polyPrim : DrawableNode → DrawableNode
  | .group (c :: _) => c
  | n => n

/-- `round(v, 7)` of the source: round to 7 decimal digits. -/
noncomputable def round7 (x : ℝ) : ℝ :=
  (round (x * 10 ^ 7) : ℝ) / 10 ^ 7

/-- `Polygon._rotate` (src/main.py lines 121–124); `PolygonGroup._rotate`
(lines 188–191) is character-identical and is shared here. -/
noncomputable def Polygon._rotate (p : ℝ × ℝ) (angle : ℝ) : ℝ × ℝ :=
  (round7 (p.1 * Real.cos (-angle) - p.2 * Real.sin (-angle)),
   round7 (p.1 * Real.sin (-angle) + p.2 * Real.cos (-angle)))

/-- The vertex-accumulation loop of `draw` (lines 98–102): seed point first,
then one rotated point per iteration (`n` iterations produce `n + 1` points). -/
noncomputable def gen_points (angle : ℝ) : ℕ → (ℝ × ℝ) → List (ℝ × ℝ)
  | 0, p => [p]
  | n + 1, p => p :: gen_points angle n (Polygon._rotate p angle)

/-- The inline regular-polygon vertex computation of `Polygon.draw`,
`PolygonGroup.draw` and `draw_child_polygon` (three character-identical blocks,
src/main.py lines 96–103, 135–142, 170–177), named after spec §4.2:
seed `(0, size·0.5)`, `vertex_count` rotations by `360/vertex_count` degrees
(in radians) with 7-digit rounding at each step, then elementwise translation
by the center. -/
noncomputable def regularPolygonVertices (vertex_count : ℕ) (size : ℚ)
    (center : ℝ × ℝ) : List (ℝ × ℝ) :=
  (gen_points ((360 / (vertex_count : ℝ)) * (Real.pi / 180)) vertex_count
      ((0 : ℝ), (size : ℝ) * 0.5)).map
    (fun p => (p.1 + center.1, p.2 + center.2))

/-- `Circle.draw` (src/main.py lines 51–59): circle of radius `size/2` at
`center`; the `rotation` argument is ignored. -/
def Circle.draw (style : Style) (center : ℝ × ℝ) (size rotation : ℚ) (g : Rng) :
    Except Err (DrawableNode × Rng) :=
  match random_choice style.fill_options g with
  | .error e => .error e
  | .ok (fill, g) =>
    match random_choice style.opacity_options g with
    | .error e => .error e
    | .ok (opacity, g) => .ok (.circle center (size / 2) fill opacity, g)

/-- `Rect.draw` (src/main.py lines 62–73): square of side `size` with top-left
`center - size/2`, rotated about `center` iff `rotation ≠ 0`. -/
noncomputable def Rect.draw (style : Style) (center : ℝ × ℝ) (size rotation : ℚ) (g : Rng) :
    Except Err (DrawableNode × Rng) :=
  match random_choice style.fill_options g with
  | .error e => .error e
  | .ok (fill, g) =>
    match random_choice style.opacity_options g with
    | .error e => .error e
    | .ok (opacity, g) =>
      .ok (.rect (center.1 - (size : ℝ) / 2, center.2 - (size : ℝ) / 2) (size, size)
            fill opacity (if rotation ≠ 0 then some (rotation, center) else none), g)

/-- `Ellipse.draw` (src/main.py lines 76–86): radii `(size/2, size/4)`,
rotated about `center` iff `rotation ≠ 0`. -/
def Ellipse.draw (style : Style) (center : ℝ × ℝ) (size rotation : ℚ) (g : Rng) :
    Except Err (DrawableNode × Rng) :=
  match random_choice style.fill_options g with
  | .error e => .error e
  | .ok (fill, g) =>
    match random_choice style.opacity_options g with
    | .error e => .error e
    | .ok (opacity, g) =>
      .ok (.ellipse center (size / 2) (size / 4) fill opacity
            (if rotation ≠ 0 then some (rotation, center) else none), g)

/-- `Polygon.draw` (src/main.py lines 95–119).  The recursive call
`draw_component(dwg, center, self.center_element)` is abstracted as the
function argument `recur` (instantiated with `draw_component cfg fuel` below,
modelling the deeper stack frame). -/
noncomputable def Polygon.draw
    (recur : (ℝ × ℝ) → String → Rng → Except Err (DrawableNode × Rng))
    (vertex_count : ℕ) (center_element : Option String) (style : Style)
    (center : ℝ × ℝ) (size rotation : ℚ) (g : Rng) :
    Except Err (DrawableNode × Rng) :=
  let points_list := regularPolygonVertices vertex_count size center
  match random_choice style.fill_options g with
  | .error e => .error e
  | .ok (fill, g) =>
    match random_choice style.opacity_options g with
    | .error e => .error e
    | .ok (opacity, g) =>
      let polygon : DrawableNode := .polygon points_list fill opacity
        (if rotation ≠ 0 then some (rotation, center) else none)
      match center_element with
      | none => .ok (polygon, g)
      | some ce =>
        match recur center ce g with
        | .error e => .error e
        | .ok (center_component, g) =>
          .ok (.group [polygon, center_component], g)

/-- `PolygonGroup.draw_child_polygon` (src/main.py lines 169–186): a child
polygon re-using the group's `vertex_count` and style options, rotated about
its own center iff `rotation ≠ 0`. -/
noncomputable def PolygonGroup.draw_child_polygon (vertex_count : ℕ) (style : Style)
    (center : ℝ × ℝ) (size rotation : ℚ) (g : Rng) :
    Except Err (DrawableNode × Rng) :=
  let points_list := regularPolygonVertices vertex_count size center
  match random_choice style.fill_options g with
  | .error e => .error e
  | .ok (fill, g) =>
    match random_choice style.opacity_options g with
    | .error e => .error e
    | .ok (opacity, g) =>
      .ok (.polygon points_list fill opacity
            (if rotation ≠ 0 then some (rotation, center) else none), g)

/-- The per-vertex child loop of `PolygonGroup.draw` (lines 159–161 and
163–165): draw one child per point, in order, threading the generator. -/
noncomputable def draw_vertex_children
    (draw_at : (ℝ × ℝ) → Rng → Except Err (DrawableNode × Rng)) :
    List (ℝ × ℝ) → Rng → Except Err (List DrawableNode × Rng)
  | [], g => .ok ([], g)
  | p :: rest, g =>
    match draw_at p g with
    | .error e => .error e
    | .ok (c, g) =>
      match draw_vertex_children draw_at rest g with
      | .error e => .error e
      | .ok (cs, g) => .ok (c :: cs, g)

/-- `PolygonGroup.draw` (src/main.py lines 134–166).  The outer polygon never
carries a rotation transform; children are added in the order
[outer polygon, optional center element, per-vertex children], the vertex
children being drawn at `points_list[i]` for `i < vertex_count` only (the
closing duplicate point is unused).  The `"circle"` vertex-element lookup is
hardcoded to the registry id `"circle"`. -/
noncomputable def PolygonGroup.draw
    (recur : (ℝ × ℝ) → String → Rng → Except Err (DrawableNode × Rng))
    (vertex_count : ℕ) (vertex_elements center_element : Option String)
    (style : Style) (center : ℝ × ℝ) (size rotation : ℚ) (g : Rng) :
    Except Err (DrawableNode × Rng) :=
  let points_list := regularPolygonVertices vertex_count size center
  match random_choice style.fill_options g with
  | .error e => .error e
  | .ok (fill, g) =>
    match random_choice style.opacity_options g with
    | .error e => .error e
    | .ok (opacity, g) =>
      let polygon : DrawableNode := .polygon points_list fill opacity none
      match (match center_element with
             | none => (.ok ([], g) : Except Err (List DrawableNode × Rng))
             | some ce =>
               match recur center ce g with
               | .error e => .error e
               | .ok (c, g) => .ok ([c], g)) with
      | .error e => .error e
      | .ok (center_part, g) =>
        match (match vertex_elements with
               | some "circle" =>
                 draw_vertex_children (fun p g => recur p "circle" g)
                   (points_list.take vertex_count) g
               | some "polygon" =>
                 draw_vertex_children
                   (fun p g => PolygonGroup.draw_child_polygon vertex_count style p
                     size rotation g)
                   (points_list.take vertex_count) g
               | _ => (.ok ([], g) : Except Err (List DrawableNode × Rng))) with
        | .error e => .error e
        | .ok (vertex_part, g) =>
          .ok (.group (polygon :: (center_part ++ vertex_part)), g)

/-- `create_component` (src/main.py lines 195–214): dispatch on the `type`
string; `Polygon`/`PolygonGroup` make their construction-time random draws
here; an unknown type yields no component (Python returns `None`). -/
def create_component (params : RawDef) (g : Rng) :
    Except Err (Option Component × Rng) :=
  if params.type = "Circle" then .ok (some (.circle params.id params.style), g)
  else if params.type = "Rect" then .ok (some (.rect params.id params.style), g)
  else if params.type = "Ellipse" then .ok (some (.ellipse params.id params.style), g)
  else if params.type = "Polygon" then
    match random_choice params.vertex_count g with
    | .error e => .error e
    | .ok (vc, g) =>
      match random_choice params.center_elements g with
      | .error e => .error e
      | .ok (ce, g) => .ok (some (.polygon params.id params.style vc ce), g)
  else if params.type = "PolygonGroup" then
    match random_choice params.vertex_count_options g with
    | .error e => .error e
    | .ok (vc, g) =>
      match random_choice params.vertex_elements g with
      | .error e => .error e
      | .ok (ve, g) =>
        match random_choice params.center_elements g with
        | .error e => .error e
        | .ok (ce, g) => .ok (some (.polygonGroup params.id params.style vc ve ce), g)
  else .ok (none, g)

/-- The already-parsed configuration tree (spec §6): canvas dimensions, the
ordered top-level draw list, and the ordered `element_defs` entries. -/
structure Config where
  canvas_width : ℕ
  canvas_height : ℕ
  component_to_draw : List String
  element_defs : List (String × RawDef)

/-- The loop body of `parse_components` (lines 28–29): build one component per
`element_defs` entry, in insertion order, threading the generator. -/
def build_components : List (String × RawDef) → Rng →
    Except Err (List (String × Option Component) × Rng)
  | [], g => .ok ([], g)
  | (key, value) :: rest, g =>
    match create_component value g with
    | .error e => .error e
    | .ok (c, g) =>
      match build_components rest g with
      | .error e => .error e
      | .ok (cs, g) => .ok ((key, c) :: cs, g)

/-- `parse_components` (src/main.py lines 25–30): rebuild the whole registry
from the configuration (this happens again on every nested lookup). -/
def parse_components (cfg : Config) (g : Rng) :
    Except Err (List (String × Option Component) × Rng) :=
  build_components cfg.element_defs g

/-- Python dict lookup on the registry association list. -/
def dict_get {α : Type} (l : List (String × α)) (k : String) : Option α :=
  (l.find? (fun p => p.1 == k)).map (fun p => p.2)

/-- Dispatch of the polymorphic `component.draw(dwg, center, size, rotation)`
call on the variant of the instance. -/
noncomputable def component_draw
    (recur : (ℝ × ℝ) → String → Rng → Except Err (DrawableNode × Rng))
    (c : Component) (center : ℝ × ℝ) (size rotation : ℚ) (g : Rng) :
    Except Err (DrawableNode × Rng) :=
  match c with
  | .circle _ style => Circle.draw style center size rotation g
  | .rect _ style => Rect.draw style center size rotation g
  | .ellipse _ style => Ellipse.draw style center size rotation g
  | .polygon _ style vc ce => Polygon.draw recur vc ce style center size rotation g
  | .polygonGroup _ style vc ve ce =>
      PolygonGroup.draw recur vc ve ce style center size rotation g

/-- `draw_component` (src/main.py lines 34–39): re-parse the registry, look up
the referenced component, resolve size and rotation from that component's own
style options, and draw it.  `fuel` models the Python call stack; the source
has no cycle guard, so a cyclic reference only ever stops by exhausting it. -/
noncomputable def draw_component (cfg : Config) :
    ℕ → (ℝ × ℝ) → String → Rng → Except Err (DrawableNode × Rng)
  | 0, _, _, _ => .error .recursionLimit
  | fuel + 1, center, center_element, g =>
    match parse_components cfg g with
    | .error e => .error e
    | .ok (components, g) =>
      match dict_get components center_element with
      | none => .error (.keyError center_element)
      | some none => .error .attributeError
      | some (some component) =>
        match random_choice component.style.size_options g with
        | .error e => .error e
        | .ok (size_option, g) =>
          match random_choice component.style.rotation_options g with
          | .error e => .error e
          | .ok (rotation_option, g) =>
            component_draw (draw_component cfg fuel) component center
              size_option rotation_option g

/-- One iteration of the top-level loop of `main` (src/main.py lines 226–233):
look up the requested component in the pre-built registry, center it on the
canvas, resolve size and rotation from its own style options, and draw it. -/
noncomputable def drawTopComponent (cfg : Config) (fuel : ℕ)
    (components : List (String × Option Component)) (component_id : String)
    (g : Rng) : Except Err (DrawableNode × Rng) :=
  match dict_get components component_id with
  | none => .error (.keyError component_id)
  | some none => .error .attributeError
  | some (some component) =>
    let center_option : ℝ × ℝ :=
      ((cfg.canvas_width : ℝ) / 2, (cfg.canvas_height : ℝ) / 2)
    match random_choice component.style.size_options g with
    | .error e => .error e
    | .ok (size_option, g) =>
      match random_choice component.style.rotation_options g with
      | .error e => .error e
      | .ok (rotation_option, g) =>
        component_draw (draw_component cfg fuel) component center_option
          size_option rotation_option g

/-- The top-level loop of `main`: draw each requested component in request
order; an exception aborts the loop, keeping the nodes already added to the
drawing (`dwg.add`) and surfacing the error. -/
noncomputable def drawLoop (cfg : Config) (fuel : ℕ)
    (components : List (String × Option Component)) :
    List String → Rng → List DrawableNode × Option Err
  | [], _ => ([], none)
  | component_id :: rest, g =>
    match drawTopComponent cfg fuel components component_id g with
    | .error e => ([], some e)
    | .ok (node, g) =>
      let r := drawLoop cfg fuel components rest g
      (node :: r.1, r.2)

/-- `main` (src/main.py lines 217–237), up to yaml parsing and file output:
build the registry once, then draw the requested components in order.  The
first component of the result is the scene (nodes added before any error);
the second is the error that aborted the run, if any. -/
noncomputable def drawScene (cfg : Config) (fuel : ℕ) (g : Rng) :
    List DrawableNode × Option Err :=
  match parse_components cfg g with
  | .error e => ([], some e)
  | .ok (components, g) => drawLoop cfg fuel components cfg.component_to_draw g

/-! ### Concrete generators, styles and configurations used as test inputs -/

/-- A generator stream that always draws index 0 (picks the first option). -/
def g0 : Rng := ⟨fun _ => 0, 0⟩

/-- A generator stream that always draws index 1. -/
def g1 : Rng := ⟨fun _ => 1, 0⟩

/-- A recursion continuation standing for an already-exhausted call stack. -/
def recur0 : (ℝ × ℝ) → String → Rng → Except Err (DrawableNode × Rng) :=
  fun _ _ _ => .error .recursionLimit

/-- The node produced by a draw call, when it succeeded. -/
def nodeOf : Except Err (DrawableNode × Rng) → Option DrawableNode
  | .ok (n, _) => some n
  | .error _ => none

/-- The generator state left by a draw call, when it succeeded. -/
def rngOf : Except Err (DrawableNode × Rng) → Option Rng
  | .ok (_, g) => some g
  | .error _ => none

/-- A style with singleton option sets. -/
def st0 : Style := ⟨["red"], [1], [2], [45]⟩

/-- A style with two fill options. -/
def st2 : Style := ⟨["red", "blue"], [1], [2], [0]⟩

/-- A style whose fill option set is empty (a broken configuration). -/
def stEmptyFill : Style := ⟨[], [1], [2], [0]⟩

/-- A style whose rotation option set is empty (a broken configuration). -/
def stNoRotation : Style := ⟨["red"], [1], [2], []⟩

/-- A registry holding one circle component, with id `"circle"`. -/
def cfgCircle : Config :=
  ⟨200, 200, [], [("circle", ⟨"Circle", "circle", st0, [], [], [], []⟩)]⟩

/-- A circle plus a polygon whose center element references the circle. -/
def cfgP : Config :=
  ⟨200, 200, ["p"],
   [("circle", ⟨"Circle", "circle", st0, [], [], [], []⟩),
    ("p", ⟨"Polygon", "p", st0, [3], [], [some "circle"], []⟩)]⟩

/-- A self-referential configuration: polygon `"a"` lists itself as its only
center element (`center_elements: ["a"]`). -/
def cfgCyc : Config :=
  ⟨200, 200, ["a"], [("a", ⟨"Polygon", "a", st0, [3], [], [some "a"], []⟩)]⟩

/-- A well-formed circle `"ok"` followed by a circle `"bad"` whose
`fill_options` set is empty. -/
def cfg7 : Config :=
  ⟨200, 200, ["ok", "bad"],
   [("ok", ⟨"Circle", "ok", st0, [], [], [], []⟩),
    ("bad", ⟨"Circle", "bad", stEmptyFill, [], [], [], []⟩)]⟩

/-- A single circle whose `rotation_options` set is empty. -/
def cfg10 : Config :=
  ⟨200, 200, ["c"], [("c", ⟨"Circle", "c", stNoRotation, [], [], [], []⟩)]⟩

/-- Two well-formed top-level circles. -/
def cfg9 : Config :=
  ⟨100, 60, ["a", "b"],
   [("a", ⟨"Circle", "a", st0, [], [], [], []⟩),
    ("b", ⟨"Circle", "b", st2, [], [], [], []⟩)]⟩

/-! ### Helper lemmas about the generator and the vertex loop -/

/-- A successful `random_choice` returns a member of the option list. -/
theorem random_choice_mem {α : Type} {options : List α} {g : Rng} {v : α} {g' : Rng}
    (h : random_choice options g = .ok (v, g')) : v ∈ options := by
  match options with
  | [] => simp [random_choice] at h
  | o :: os =>
    simp only [random_choice, Except.ok.injEq, Prod.mk.injEq] at h
    rcases h with ⟨h1, -⟩
    rw [← h1]
    have hlt : g.seq g.idx % (os.length + 1) < (o :: os).length :=
      Nat.mod_lt _ (Nat.succ_pos _)
    rw [List.getD_eq_getElem _ _ hlt]
    exact List.getElem_mem hlt

/-- `random_choice` on an empty option set always fails with IndexError. -/
theorem random_choice_nil {α : Type} (g : Rng) :
    random_choice ([] : List α) g = .error .emptyOptions := rfl

/-- `random_choice` from a singleton list always yields its element. -/
theorem random_choice_singleton {α : Type} (a : α) (g : Rng) :
    random_choice [a] g = .ok (a, ⟨g.seq, g.idx + 1⟩) := by
  simp [random_choice]

theorem gen_points_length (a : ℝ) (n : ℕ) (p : ℝ × ℝ) :
    (gen_points a n p).length = n + 1 := by
  induction n generalizing p with
  | zero => rfl
  | succ n ih => simp [gen_points, ih]

theorem gen_points_head? (a : ℝ) (n : ℕ) (p : ℝ × ℝ) :
    (gen_points a n p).head? = some p := by
  cases n <;> rfl

/-- The last accumulated point is the `n`-fold rounded rotation of the seed. -/
theorem gen_points_getLast? (a : ℝ) (n : ℕ) (p : ℝ × ℝ) :
    (gen_points a n p).getLast? = some ((fun q => Polygon._rotate q a)^[n] p) := by
  induction n generalizing p with
  | zero => rfl
  | succ n ih =>
    rw [Function.iterate_succ_apply]
    rw [show gen_points a (n + 1) p = p :: gen_points a n (Polygon._rotate p a) from rfl]
    rw [List.getLast?_cons, ih]
    simp

/-- Point `i + 1` of the accumulation list is the rounded rotation of point
`i` (for `i < n`; point `n` is the last one). -/
theorem gen_points_succ (a : ℝ) (n : ℕ) (p : ℝ × ℝ) :
    ∀ i q, (gen_points a n p)[i]? = some q → i < n →
      (gen_points a n p)[i + 1]? = some (Polygon._rotate q a) := by
  induction n generalizing p with
  | zero => intro i q _ hi; omega
  | succ n ih =>
    intro i q hq hi
    match i with
    | 0 =>
      rw [show gen_points a (n + 1) p = p :: gen_points a n (Polygon._rotate p a) from rfl] at hq ⊢
      simp only [List.getElem?_cons_zero, Option.some.injEq] at hq
      subst hq
      rw [List.getElem?_cons_succ, ← List.head?_eq_getElem?]
      exact gen_points_head? a n (Polygon._rotate p a)
    | i + 1 =>
      rw [show gen_points a (n + 1) p = p :: gen_points a n (Polygon._rotate p a) from rfl] at hq ⊢
      rw [List.getElem?_cons_succ] at hq
      rw [List.getElem?_cons_succ]
      exact ih _ i q hq (by omega)

/-- Specification of the per-vertex child loop: on success it produces one
child per point, in order, each child drawn at its point (with some
intermediate generator states). -/
theorem draw_vertex_children_ok
    {f : (ℝ × ℝ) → Rng → Except Err (DrawableNode × Rng)} :
    ∀ {pts : List (ℝ × ℝ)} {g : Rng} {cs : List DrawableNode} {g' : Rng},
      draw_vertex_children f pts g = .ok (cs, g') →
      cs.length = pts.length ∧
        ∀ (i : ℕ) (p : ℝ × ℝ), pts[i]? = some p →
          ∃ (c : DrawableNode) (g₁ g₂ : Rng), cs[i]? = some c ∧ f p g₁ = .ok (c, g₂) := by
  intro pts
  induction pts with
  | nil =>
    intro g cs g' h
    simp only [draw_vertex_children, Except.ok.injEq, Prod.mk.injEq] at h
    rcases h with ⟨h1, -⟩
    subst h1
    exact ⟨rfl, by intro i p hp; simp at hp⟩
  | cons p rest ih =>
    intro g cs g' h
    rw [show draw_vertex_children f (p :: rest) g =
        (match f p g with
         | .error e => .error e
         | .ok (c, g) =>
           match draw_vertex_children f rest g with
           | .error e => .error e
           | .ok (cs, g) => .ok (c :: cs, g)) from rfl] at h
    rcases hf : f p g with e | ⟨c, g₁⟩ <;> rw [hf] at h <;> dsimp only at h
    · exact absurd h (by simp)
    · rcases hr : draw_vertex_children f rest g₁ with e | ⟨cs₁, g₂⟩ <;> rw [hr] at h <;>
        dsimp only at h
      · exact absurd h (by simp)
      · simp only [Except.ok.injEq, Prod.mk.injEq] at h
        rcases h with ⟨h1, -⟩
        subst h1
        rcases ih hr with ⟨hlen, hall⟩
        refine ⟨by simp [hlen], ?_⟩
        intro i q hq
        match i with
        | 0 =>
          simp only [List.getElem?_cons_zero, Option.some.injEq] at hq
          subst hq
          refine ⟨c, g, g₁, ?_, hf⟩
          simp
        | i + 1 =>
          rw [List.getElem?_cons_succ] at hq
          rcases hall i q hq with ⟨c', g₁', g₂', hc', hf'⟩
          refine ⟨c', g₁', g₂', ?_, hf'⟩
          rw [List.getElem?_cons_succ]
          exact hc'

/-! ### Geometry kernel: the rounding drift of the vertex loop -/

/-- Rounding to 7 decimal digits moves a real by at most `5·10⁻⁸`. -/
theorem abs_round7_sub (x : ℝ) : |round7 x - x| ≤ 1 / 2 / 10 ^ 7 := by
  have h := abs_sub_round (x * 10 ^ 7)
  have h7 : (0 : ℝ) < 10 ^ 7 := by norm_num
  have heq : round7 x - x = -((x * 10 ^ 7 - (round (x * 10 ^ 7) : ℝ)) / 10 ^ 7) := by
    rw [round7]
    field_simp
    ring
  rw [heq, abs_neg, abs_div, abs_of_pos h7]
  gcongr

/-- Planar points as complex numbers, for the drift bound. -/
noncomputable def toC (p : ℝ × ℝ) : ℂ := ⟨p.1, p.2⟩

/-- The unrounded rotation step of `_rotate` is multiplication by
`exp (-angle·I)`. -/
theorem toC_mul_exp (p : ℝ × ℝ) (a : ℝ) :
    toC p * Complex.exp (-(a : ℂ) * Complex.I) =
      toC (p.1 * Real.cos (-a) - p.2 * Real.sin (-a),
           p.1 * Real.sin (-a) + p.2 * Real.cos (-a)) := by
  have h : (-(a : ℂ)) = ((-a : ℝ) : ℂ) := by push_cast; ring
  rw [h, Complex.exp_mul_I]
  apply Complex.ext <;>
    simp [toC, Complex.mul_re, Complex.mul_im, Complex.add_re, Complex.add_im,
      Complex.cos_ofReal_re, Complex.sin_ofReal_re, Complex.cos_ofReal_im,
      Complex.sin_ofReal_im]

/-- One `_rotate` step stays within `10⁻⁷` of the exact rotation. -/
theorem rotate_step_close (p : ℝ × ℝ) (a : ℝ) :
    Complex.abs (toC (Polygon._rotate p a) - toC p * Complex.exp (-(a : ℂ) * Complex.I))
      ≤ 1 / 10 ^ 7 := by
  rw [toC_mul_exp]
  have hre : (toC (Polygon._rotate p a)
      - toC (p.1 * Real.cos (-a) - p.2 * Real.sin (-a),
             p.1 * Real.sin (-a) + p.2 * Real.cos (-a))).re
      = round7 (p.1 * Real.cos (-a) - p.2 * Real.sin (-a))
        - (p.1 * Real.cos (-a) - p.2 * Real.sin (-a)) := by
    simp [toC, Polygon._rotate]
  have him : (toC (Polygon._rotate p a)
      - toC (p.1 * Real.cos (-a) - p.2 * Real.sin (-a),
             p.1 * Real.sin (-a) + p.2 * Real.cos (-a))).im
      = round7 (p.1 * Real.sin (-a) + p.2 * Real.cos (-a))
        - (p.1 * Real.sin (-a) + p.2 * Real.cos (-a)) := by
    simp [toC, Polygon._rotate]
  calc Complex.abs _ ≤ |(toC (Polygon._rotate p a)
          - toC (p.1 * Real.cos (-a) - p.2 * Real.sin (-a),
                 p.1 * Real.sin (-a) + p.2 * Real.cos (-a))).re|
        + |(toC (Polygon._rotate p a)
          - toC (p.1 * Real.cos (-a) - p.2 * Real.sin (-a),
                 p.1 * Real.sin (-a) + p.2 * Real.cos (-a))).im| :=
      Complex.abs_le_abs_re_add_abs_im _
    _ ≤ 1 / 2 / 10 ^ 7 + 1 / 2 / 10 ^ 7 := by
      rw [hre, him]
      exact add_le_add (abs_round7_sub _) (abs_round7_sub _)
    _ = 1 / 10 ^ 7 := by norm_num

/-- After `k` rounded rotation steps the point is within `k·10⁻⁷` of the
exact `k`-fold rotation. -/
theorem iterate_rotate_close (p : ℝ × ℝ) (a : ℝ) (k : ℕ) :
    Complex.abs (toC ((fun q => Polygon._rotate q a)^[k] p)
      - toC p * Complex.exp (-(a : ℂ) * Complex.I) ^ k) ≤ k / 10 ^ 7 := by
  induction k with
  | zero => simp
  | succ k ih =>
    rw [Function.iterate_succ_apply']
    have habs : Complex.abs (Complex.exp (-(a : ℂ) * Complex.I)) = 1 := by
      rw [show (-(a : ℂ) * Complex.I) = ((-a : ℝ) : ℂ) * Complex.I by push_cast; ring]
      exact Complex.abs_exp_ofReal_mul_I (-a)
    have hsplit : toC (Polygon._rotate ((fun q => Polygon._rotate q a)^[k] p) a)
        - toC p * Complex.exp (-(a : ℂ) * Complex.I) ^ (k + 1)
        = (toC (Polygon._rotate ((fun q => Polygon._rotate q a)^[k] p) a)
            - toC ((fun q => Polygon._rotate q a)^[k] p)
              * Complex.exp (-(a : ℂ) * Complex.I))
          + (toC ((fun q => Polygon._rotate q a)^[k] p)
              - toC p * Complex.exp (-(a : ℂ) * Complex.I) ^ k)
            * Complex.exp (-(a : ℂ) * Complex.I) := by
      ring
    rw [hsplit]
    calc Complex.abs _
        ≤ Complex.abs (toC (Polygon._rotate ((fun q => Polygon._rotate q a)^[k] p) a)
            - toC ((fun q => Polygon._rotate q a)^[k] p)
              * Complex.exp (-(a : ℂ) * Complex.I))
          + Complex.abs ((toC ((fun q => Polygon._rotate q a)^[k] p)
              - toC p * Complex.exp (-(a : ℂ) * Complex.I) ^ k)
            * Complex.exp (-(a : ℂ) * Complex.I)) := Complex.abs.add_le _ _
      _ ≤ 1 / 10 ^ 7 + (k : ℝ) / 10 ^ 7 := by
          refine add_le_add (rotate_step_close _ a) ?_
          rw [map_mul, habs, mul_one]
          exact ih
      _ = (k + 1 : ℕ) / 10 ^ 7 := by push_cast; ring

/-- `vertex_count` exact steps of `360/vertex_count` degrees make a full
turn: the exact per-step rotation factor is an `n`-th root of unity. -/
theorem exp_pow_vertex (n : ℕ) (hn : n ≠ 0) :
    Complex.exp (-(((360 / (n : ℝ)) * (Real.pi / 180) : ℝ) : ℂ) * Complex.I) ^ n = 1 := by
  have hnR : (n : ℝ) ≠ 0 := Nat.cast_ne_zero.2 hn
  rw [← Complex.exp_nat_mul]
  have hA : (n : ℝ) * ((360 / (n : ℝ)) * (Real.pi / 180)) = 2 * Real.pi := by
    field_simp
    ring
  have harg : (n : ℂ) * (-(((360 / (n : ℝ)) * (Real.pi / 180) : ℝ) : ℂ) * Complex.I)
      = ((-1 : ℤ) : ℂ) * (2 * (Real.pi : ℂ) * Complex.I) := by
    have : (((n : ℝ) * ((360 / (n : ℝ)) * (Real.pi / 180)) : ℝ) : ℂ)
        = ((2 * Real.pi : ℝ) : ℂ) := by rw [hA]
    push_cast at this ⊢
    linear_combination (-Complex.I) * this
  rw [harg]
  exact Complex.exp_int_mul_two_pi_mul_I (-1)

/-- The `n`-fold rounded rotation by `360/n` degrees returns to within
`n·10⁻⁷` of the start, in each coordinate. -/
theorem iterate_rotate_closure (p : ℝ × ℝ) (n : ℕ) (hn : n ≠ 0) :
    |((fun q => Polygon._rotate q ((360 / (n : ℝ)) * (Real.pi / 180)))^[n] p).1 - p.1|
        ≤ n / 10 ^ 7
    ∧ |((fun q => Polygon._rotate q ((360 / (n : ℝ)) * (Real.pi / 180)))^[n] p).2 - p.2|
        ≤ n / 10 ^ 7 := by
  have h := iterate_rotate_close p ((360 / (n : ℝ)) * (Real.pi / 180)) n
  rw [exp_pow_vertex n hn, mul_one] at h
  have hre : (toC ((fun q => Polygon._rotate q ((360 / (n : ℝ)) * (Real.pi / 180)))^[n] p)
      - toC p).re
      = ((fun q => Polygon._rotate q ((360 / (n : ℝ)) * (Real.pi / 180)))^[n] p).1 - p.1 := by
    simp [toC]
  have him : (toC ((fun q => Polygon._rotate q ((360 / (n : ℝ)) * (Real.pi / 180)))^[n] p)
      - toC p).im
      = ((fun q => Polygon._rotate q ((360 / (n : ℝ)) * (Real.pi / 180)))^[n] p).2 - p.2 := by
    simp [toC]
  constructor
  · rw [← hre]
    exact le_trans (Complex.abs_re_le_abs _) h
  · rw [← him]
    exact le_trans (Complex.abs_im_le_abs _) h

/-- C1 (amended): for every `vertexCount ≥ 3`, circumradius `size/2` and
center `(x, y)`, the vertex computation produces exactly `vertexCount + 1`
points, starting from the translated seed `(0, size·0.5)`, each subsequent
point being the 7-digit-rounded rotation of the previous one by
`360/vertexCount` degrees (about the origin, in local coordinates), the whole
list being translated elementwise by `(x, y)`; the first and last points agree
up to tolerance `vertexCount·10⁻⁷` in each coordinate (the fixed tolerance
`10⁻⁷` claimed by the spec is too small — see the counterexample). -/
theorem c1_regular_polygon_vertices (vertex_count : ℕ) (size : ℚ) (x y : ℝ)
    (h3 : 3 ≤ vertex_count) :
    (regularPolygonVertices vertex_count size (x, y)).length = vertex_count + 1
    ∧ (regularPolygonVertices vertex_count size (x, y)).head? =
        some ((0 : ℝ) + x, (size : ℝ) * 0.5 + y)
    ∧ (∀ (i : ℕ) (q : ℝ × ℝ),
        (regularPolygonVertices vertex_count size (x, y))[i]? = some q →
        i < vertex_count →
        (regularPolygonVertices vertex_count size (x, y))[i + 1]? =
          some ((Polygon._rotate (q.1 - x, q.2 - y)
                  ((360 / (vertex_count : ℝ)) * (Real.pi / 180))).1 + x,
                (Polygon._rotate (q.1 - x, q.2 - y)
                  ((360 / (vertex_count : ℝ)) * (Real.pi / 180))).2 + y))
    ∧ |((regularPolygonVertices vertex_count size (x, y)).getLastD (0, 0)).1 -
         ((regularPolygonVertices vertex_count size (x, y)).headD (0, 0)).1|
        ≤ vertex_count / 10 ^ 7
    ∧ |((regularPolygonVertices vertex_count size (x, y)).getLastD (0, 0)).2 -
         ((regularPolygonVertices vertex_count size (x, y)).headD (0, 0)).2|
        ≤ vertex_count / 10 ^ 7 := by
  have hn : vertex_count ≠ 0 := by omega
  have hlast : (regularPolygonVertices vertex_count size (x, y)).getLastD (0, 0) =
      (((fun q => Polygon._rotate q ((360 / (vertex_count : ℝ)) * (Real.pi / 180)))^[vertex_count]
          ((0 : ℝ), (size : ℝ) * 0.5)).1 + x,
       ((fun q => Polygon._rotate q ((360 / (vertex_count : ℝ)) * (Real.pi / 180)))^[vertex_count]
          ((0 : ℝ), (size : ℝ) * 0.5)).2 + y) := by
    rw [List.getLastD_eq_getLast?, regularPolygonVertices, List.getLast?_map,
      gen_points_getLast?]
    rfl
  have hhead : (regularPolygonVertices vertex_count size (x, y)).headD (0, 0) =
      ((0 : ℝ) + x, (size : ℝ) * 0.5 + y) := by
    rw [List.headD_eq_head?, regularPolygonVertices, List.head?_map, gen_points_head?]
    rfl
  refine ⟨?_, ?_, ?_, ?_, ?_⟩
  · rw [regularPolygonVertices, List.length_map, gen_points_length]
  · rw [regularPolygonVertices, List.head?_map, gen_points_head?]
    rfl
  · intro i q hq hi
    rw [regularPolygonVertices, List.getElem?_map] at hq
    rcases Option.map_eq_some'.1 hq with ⟨q', hq', htr⟩
    have h2 := gen_points_succ ((360 / (vertex_count : ℝ)) * (Real.pi / 180))
      vertex_count ((0 : ℝ), (size : ℝ) * 0.5) i q' hq' hi
    rw [regularPolygonVertices, List.getElem?_map, h2]
    have hq'' : (q.1 - x, q.2 - y) = q' := by
      rw [← htr]
      exact Prod.ext (by simp) (by simp)
    rw [hq'']
    rfl
  · rw [hlast, hhead]
    have hcl := (iterate_rotate_closure ((0 : ℝ), (size : ℝ) * 0.5) vertex_count hn).1
    have heq : ((fun q => Polygon._rotate q ((360 / (vertex_count : ℝ)) * (Real.pi / 180)))^[vertex_count]
            ((0 : ℝ), (size : ℝ) * 0.5)).1 + x - ((0 : ℝ) + x)
        = ((fun q => Polygon._rotate q ((360 / (vertex_count : ℝ)) * (Real.pi / 180)))^[vertex_count]
            ((0 : ℝ), (size : ℝ) * 0.5)).1 - ((0 : ℝ), (size : ℝ) * 0.5).1 := by
      ring_nf
    rw [heq]
    exact hcl
  · rw [hlast, hhead]
    have hcl := (iterate_rotate_closure ((0 : ℝ), (size : ℝ) * 0.5) vertex_count hn).2
    have heq : ((fun q => Polygon._rotate q ((360 / (vertex_count : ℝ)) * (Real.pi / 180)))^[vertex_count]
            ((0 : ℝ), (size : ℝ) * 0.5)).2 + y - ((size : ℝ) * 0.5 + y)
        = ((fun q => Polygon._rotate q ((360 / (vertex_count : ℝ)) * (Real.pi / 180)))^[vertex_count]
            ((0 : ℝ), (size : ℝ) * 0.5)).2 - ((0 : ℝ), (size : ℝ) * 0.5).2 := by
      ring_nf
    rw [heq]
    exact hcl

/-- Witness for `c1_regular_polygon_vertices`: the amended statement at
`vertexCount = 3`, `size = 2`, center `(0, 0)`. -/
theorem c1_regular_polygon_vertices_witness :
    (regularPolygonVertices 3 2 ((0 : ℝ), (0 : ℝ))).length = 3 + 1
    ∧ (regularPolygonVertices 3 2 ((0 : ℝ), (0 : ℝ))).head? =
        some ((0 : ℝ) + 0, ((2 : ℚ) : ℝ) * 0.5 + 0)
    ∧ (∀ (i : ℕ) (q : ℝ × ℝ),
        (regularPolygonVertices 3 2 ((0 : ℝ), (0 : ℝ)))[i]? = some q →
        i < 3 →
        (regularPolygonVertices 3 2 ((0 : ℝ), (0 : ℝ)))[i + 1]? =
          some ((Polygon._rotate (q.1 - 0, q.2 - 0)
                  ((360 / ((3 : ℕ) : ℝ)) * (Real.pi / 180))).1 + 0,
                (Polygon._rotate (q.1 - 0, q.2 - 0)
                  ((360 / ((3 : ℕ) : ℝ)) * (Real.pi / 180))).2 + 0))
    ∧ |((regularPolygonVertices 3 2 ((0 : ℝ), (0 : ℝ))).getLastD (0, 0)).1 -
         ((regularPolygonVertices 3 2 ((0 : ℝ), (0 : ℝ))).headD (0, 0)).1|
        ≤ ((3 : ℕ) : ℝ) / 10 ^ 7
    ∧ |((regularPolygonVertices 3 2 ((0 : ℝ), (0 : ℝ))).getLastD (0, 0)).2 -
         ((regularPolygonVertices 3 2 ((0 : ℝ), (0 : ℝ))).headD (0, 0)).2|
        ≤ ((3 : ℕ) : ℝ) / 10 ^ 7 :=
  c1_regular_polygon_vertices 3 2 0 0 (by decide)

/-! ### The C1 counterexample: at `vertexCount = 8` the closure error of the
vertex loop exceeds the fixed `10⁻⁷` tolerance -/

theorem sqrt_two_gt : (1.4142135623 : ℝ) < Real.sqrt 2 :=
  (Real.lt_sqrt (by norm_num)).2 (by norm_num)

theorem sqrt_two_lt : Real.sqrt 2 < (1.4142135624 : ℝ) :=
  (Real.sqrt_lt' (by norm_num)).2 (by norm_num)

/-- Determine `round7` from floor bounds on `x·10⁷ + 1/2`. -/
theorem round7_eq (t : ℝ) (m : ℤ) (h1 : (m : ℝ) ≤ t * 10 ^ 7 + 1 / 2)
    (h2 : t * 10 ^ 7 + 1 / 2 < m + 1) : round7 t = (m : ℝ) / 10 ^ 7 := by
  rw [round7, round_eq, Int.floor_eq_iff.2 ⟨h1, h2⟩]

theorem round7_zero : round7 0 = 0 := by
  simp [round7]

theorem round7_fact_a :
    round7 ((106963031 / 200000000 : ℝ) * Real.sqrt 2) = 7563428 / 10 ^ 7 := by
  have h := round7_eq ((106963031 / 200000000 : ℝ) * Real.sqrt 2) 7563428
    (by linarith [sqrt_two_gt]) (by linarith [sqrt_two_lt])
  rw [h]
  norm_num

theorem round7_fact_b :
    round7 ((7563428 / 10000000 : ℝ) * Real.sqrt 2) = 10696302 / 10 ^ 7 := by
  have h := round7_eq ((7563428 / 10000000 : ℝ) * Real.sqrt 2) 10696302
    (by linarith [sqrt_two_gt]) (by linarith [sqrt_two_lt])
  rw [h]
  norm_num

theorem round7_fact_c :
    round7 ((5348151 / 10000000 : ℝ) * Real.sqrt 2) = 7563428 / 10 ^ 7 := by
  have h := round7_eq ((5348151 / 10000000 : ℝ) * Real.sqrt 2) 7563428
    (by linarith [sqrt_two_gt]) (by linarith [sqrt_two_lt])
  rw [h]
  norm_num

theorem round7_fact_bn :
    round7 ((-(7563428 / 10000000) : ℝ) * Real.sqrt 2) = -(10696302 / 10 ^ 7) := by
  have h := round7_eq ((-(7563428 / 10000000) : ℝ) * Real.sqrt 2) (-10696302)
    (by linarith [sqrt_two_lt]) (by linarith [sqrt_two_gt])
  rw [h]
  norm_num

theorem round7_fact_cn :
    round7 ((-(5348151 / 10000000) : ℝ) * Real.sqrt 2) = -(7563428 / 10 ^ 7) := by
  have h := round7_eq ((-(5348151 / 10000000) : ℝ) * Real.sqrt 2) (-7563428)
    (by linarith [sqrt_two_lt]) (by linarith [sqrt_two_gt])
  rw [h]
  norm_num

/-- One `_rotate` step at the octagon angle `45°`. -/
theorem rotate_step_octagon (u v : ℝ) :
    Polygon._rotate (u, v) ((360 / ((8 : ℕ) : ℝ)) * (Real.pi / 180)) =
      (round7 ((u + v) * (Real.sqrt 2 / 2)), round7 ((v - u) * (Real.sqrt 2 / 2))) := by
  have hangle : (360 / ((8 : ℕ) : ℝ)) * (Real.pi / 180) = Real.pi / 4 := by
    rw [show ((8 : ℕ) : ℝ) = 8 by norm_num]
    ring
  have h1 : u * Real.cos (-(Real.pi / 4)) - v * Real.sin (-(Real.pi / 4))
      = (u + v) * (Real.sqrt 2 / 2) := by
    rw [Real.cos_neg, Real.sin_neg, Real.cos_pi_div_four, Real.sin_pi_div_four]
    ring
  have h2 : u * Real.sin (-(Real.pi / 4)) + v * Real.cos (-(Real.pi / 4))
      = (v - u) * (Real.sqrt 2 / 2) := by
    rw [Real.cos_neg, Real.sin_neg, Real.cos_pi_div_four, Real.sin_pi_div_four]
    ring
  rw [Polygon._rotate, hangle, h1, h2]

/-- C1 fails as stated: for `vertexCount = 8`, `size = 106963031/50000000`
(circumradius `1.06963031`) and center `(0, 0)`, the first and last points of
the computed vertex list differ in the `y`-coordinate by `1.1·10⁻⁷ > 10⁻⁷`:
the per-step 7-digit rounding drifts past the claimed tolerance. -/
theorem c1_counterexample :
    (1 : ℝ) / 10 ^ 7 <
      |((regularPolygonVertices 8 (106963031 / 50000000) ((0 : ℝ), (0 : ℝ))).getLastD (0, 0)).2 -
        ((regularPolygonVertices 8 (106963031 / 50000000) ((0 : ℝ), (0 : ℝ))).headD (0, 0)).2| := by
  have hseed : (((106963031 / 50000000 : ℚ) : ℝ)) * 0.5 = 106963031 / 100000000 := by
    push_cast
    norm_num
  have hlast : (regularPolygonVertices 8 (106963031 / 50000000) ((0 : ℝ), (0 : ℝ))).getLastD (0, 0) =
      (((fun q => Polygon._rotate q ((360 / ((8 : ℕ) : ℝ)) * (Real.pi / 180)))^[8]
          ((0 : ℝ), ((106963031 / 50000000 : ℚ) : ℝ) * 0.5)).1 + 0,
       ((fun q => Polygon._rotate q ((360 / ((8 : ℕ) : ℝ)) * (Real.pi / 180)))^[8]
          ((0 : ℝ), ((106963031 / 50000000 : ℚ) : ℝ) * 0.5)).2 + 0) := by
    rw [List.getLastD_eq_getLast?, regularPolygonVertices, List.getLast?_map,
      gen_points_getLast?]
    rfl
  have hhead : (regularPolygonVertices 8 (106963031 / 50000000) ((0 : ℝ), (0 : ℝ))).headD (0, 0) =
      ((0 : ℝ) + 0, ((106963031 / 50000000 : ℚ) : ℝ) * 0.5 + 0) := by
    rw [List.headD_eq_head?, regularPolygonVertices, List.head?_map, gen_points_head?]
    rfl
  have s1 : Polygon._rotate ((0 : ℝ), (106963031 / 100000000 : ℝ))
      ((360 / ((8 : ℕ) : ℝ)) * (Real.pi / 180)) =
      ((7563428 / 10 ^ 7 : ℝ), (7563428 / 10 ^ 7 : ℝ)) := by
    rw [rotate_step_octagon,
      show ((0 : ℝ) + 106963031 / 100000000) * (Real.sqrt 2 / 2)
        = (106963031 / 200000000 : ℝ) * Real.sqrt 2 by ring,
      show ((106963031 / 100000000 : ℝ) - 0) * (Real.sqrt 2 / 2)
        = (106963031 / 200000000 : ℝ) * Real.sqrt 2 by ring,
      round7_fact_a]
  have s2 : Polygon._rotate ((7563428 / 10 ^ 7 : ℝ), (7563428 / 10 ^ 7 : ℝ))
      ((360 / ((8 : ℕ) : ℝ)) * (Real.pi / 180)) =
      ((10696302 / 10 ^ 7 : ℝ), (0 : ℝ)) := by
    rw [rotate_step_octagon,
      show ((7563428 / 10 ^ 7 : ℝ) + 7563428 / 10 ^ 7) * (Real.sqrt 2 / 2)
        = (7563428 / 10000000 : ℝ) * Real.sqrt 2 by ring,
      show ((7563428 / 10 ^ 7 : ℝ) - 7563428 / 10 ^ 7) * (Real.sqrt 2 / 2) = (0 : ℝ) by ring,
      round7_fact_b, round7_zero]
  have s3 : Polygon._rotate ((10696302 / 10 ^ 7 : ℝ), (0 : ℝ))
      ((360 / ((8 : ℕ) : ℝ)) * (Real.pi / 180)) =
      ((7563428 / 10 ^ 7 : ℝ), (-(7563428 / 10 ^ 7) : ℝ)) := by
    rw [rotate_step_octagon,
      show ((10696302 / 10 ^ 7 : ℝ) + 0) * (Real.sqrt 2 / 2)
        = (5348151 / 10000000 : ℝ) * Real.sqrt 2 by ring,
      show ((0 : ℝ) - 10696302 / 10 ^ 7) * (Real.sqrt 2 / 2)
        = (-(5348151 / 10000000) : ℝ) * Real.sqrt 2 by ring,
      round7_fact_c, round7_fact_cn]
  have s4 : Polygon._rotate ((7563428 / 10 ^ 7 : ℝ), (-(7563428 / 10 ^ 7) : ℝ))
      ((360 / ((8 : ℕ) : ℝ)) * (Real.pi / 180)) =
      ((0 : ℝ), (-(10696302 / 10 ^ 7) : ℝ)) := by
    rw [rotate_step_octagon,
      show ((7563428 / 10 ^ 7 : ℝ) + -(7563428 / 10 ^ 7)) * (Real.sqrt 2 / 2) = (0 : ℝ) by ring,
      show ((-(7563428 / 10 ^ 7) : ℝ) - 7563428 / 10 ^ 7) * (Real.sqrt 2 / 2)
        = (-(7563428 / 10000000) : ℝ) * Real.sqrt 2 by ring,
      round7_zero, round7_fact_bn]
  have s5 : Polygon._rotate ((0 : ℝ), (-(10696302 / 10 ^ 7) : ℝ))
      ((360 / ((8 : ℕ) : ℝ)) * (Real.pi / 180)) =
      ((-(7563428 / 10 ^ 7) : ℝ), (-(7563428 / 10 ^ 7) : ℝ)) := by
    rw [rotate_step_octagon,
      show ((0 : ℝ) + -(10696302 / 10 ^ 7)) * (Real.sqrt 2 / 2)
        = (-(5348151 / 10000000) : ℝ) * Real.sqrt 2 by ring,
      show ((-(10696302 / 10 ^ 7) : ℝ) - 0) * (Real.sqrt 2 / 2)
        = (-(5348151 / 10000000) : ℝ) * Real.sqrt 2 by ring,
      round7_fact_cn]
  have s6 : Polygon._rotate ((-(7563428 / 10 ^ 7) : ℝ), (-(7563428 / 10 ^ 7) : ℝ))
      ((360 / ((8 : ℕ) : ℝ)) * (Real.pi / 180)) =
      ((-(10696302 / 10 ^ 7) : ℝ), (0 : ℝ)) := by
    rw [rotate_step_octagon,
      show ((-(7563428 / 10 ^ 7) : ℝ) + -(7563428 / 10 ^ 7)) * (Real.sqrt 2 / 2)
        = (-(7563428 / 10000000) : ℝ) * Real.sqrt 2 by ring,
      show ((-(7563428 / 10 ^ 7) : ℝ) - -(7563428 / 10 ^ 7)) * (Real.sqrt 2 / 2) = (0 : ℝ)
        by ring,
      round7_fact_bn, round7_zero]
  have s7 : Polygon._rotate ((-(10696302 / 10 ^ 7) : ℝ), (0 : ℝ))
      ((360 / ((8 : ℕ) : ℝ)) * (Real.pi / 180)) =
      ((-(7563428 / 10 ^ 7) : ℝ), (7563428 / 10 ^ 7 : ℝ)) := by
    rw [rotate_step_octagon,
      show ((-(10696302 / 10 ^ 7) : ℝ) + 0) * (Real.sqrt 2 / 2)
        = (-(5348151 / 10000000) : ℝ) * Real.sqrt 2 by ring,
      show ((0 : ℝ) - -(10696302 / 10 ^ 7)) * (Real.sqrt 2 / 2)
        = (5348151 / 10000000 : ℝ) * Real.sqrt 2 by ring,
      round7_fact_cn, round7_fact_c]
  have s8 : Polygon._rotate ((-(7563428 / 10 ^ 7) : ℝ), (7563428 / 10 ^ 7 : ℝ))
      ((360 / ((8 : ℕ) : ℝ)) * (Real.pi / 180)) =
      ((0 : ℝ), (10696302 / 10 ^ 7 : ℝ)) := by
    rw [rotate_step_octagon,
      show ((-(7563428 / 10 ^ 7) : ℝ) + 7563428 / 10 ^ 7) * (Real.sqrt 2 / 2) = (0 : ℝ) by ring,
      show ((7563428 / 10 ^ 7 : ℝ) - -(7563428 / 10 ^ 7)) * (Real.sqrt 2 / 2)
        = (7563428 / 10000000 : ℝ) * Real.sqrt 2 by ring,
      round7_zero, round7_fact_b]
  have hit : (fun q => Polygon._rotate q ((360 / ((8 : ℕ) : ℝ)) * (Real.pi / 180)))^[8]
      ((0 : ℝ), (106963031 / 100000000 : ℝ)) = ((0 : ℝ), (10696302 / 10 ^ 7 : ℝ)) := by
    have e : (fun q => Polygon._rotate q ((360 / ((8 : ℕ) : ℝ)) * (Real.pi / 180)))^[8]
        ((0 : ℝ), (106963031 / 100000000 : ℝ)) =
        (fun q => Polygon._rotate q ((360 / ((8 : ℕ) : ℝ)) * (Real.pi / 180)))
        ((fun q => Polygon._rotate q ((360 / ((8 : ℕ) : ℝ)) * (Real.pi / 180)))
        ((fun q => Polygon._rotate q ((360 / ((8 : ℕ) : ℝ)) * (Real.pi / 180)))
        ((fun q => Polygon._rotate q ((360 / ((8 : ℕ) : ℝ)) * (Real.pi / 180)))
        ((fun q => Polygon._rotate q ((360 / ((8 : ℕ) : ℝ)) * (Real.pi / 180)))
        ((fun q => Polygon._rotate q ((360 / ((8 : ℕ) : ℝ)) * (Real.pi / 180)))
        ((fun q => Polygon._rotate q ((360 / ((8 : ℕ) : ℝ)) * (Real.pi / 180)))
        ((fun q => Polygon._rotate q ((360 / ((8 : ℕ) : ℝ)) * (Real.pi / 180)))
          ((0 : ℝ), (106963031 / 100000000 : ℝ)))))))))  := rfl
    rw [e]
    rw [show (fun q => Polygon._rotate q ((360 / ((8 : ℕ) : ℝ)) * (Real.pi / 180)))
          ((0 : ℝ), (106963031 / 100000000 : ℝ))
        = ((7563428 / 10 ^ 7 : ℝ), (7563428 / 10 ^ 7 : ℝ)) from s1]
    rw [show (fun q => Polygon._rotate q ((360 / ((8 : ℕ) : ℝ)) * (Real.pi / 180)))
          ((7563428 / 10 ^ 7 : ℝ), (7563428 / 10 ^ 7 : ℝ))
        = ((10696302 / 10 ^ 7 : ℝ), (0 : ℝ)) from s2]
    rw [show (fun q => Polygon._rotate q ((360 / ((8 : ℕ) : ℝ)) * (Real.pi / 180)))
          ((10696302 / 10 ^ 7 : ℝ), (0 : ℝ))
        = ((7563428 / 10 ^ 7 : ℝ), (-(7563428 / 10 ^ 7) : ℝ)) from s3]
    rw [show (fun q => Polygon._rotate q ((360 / ((8 : ℕ) : ℝ)) * (Real.pi / 180)))
          ((7563428 / 10 ^ 7 : ℝ), (-(7563428 / 10 ^ 7) : ℝ))
        = ((0 : ℝ), (-(10696302 / 10 ^ 7) : ℝ)) from s4]
    rw [show (fun q => Polygon._rotate q ((360 / ((8 : ℕ) : ℝ)) * (Real.pi / 180)))
          ((0 : ℝ), (-(10696302 / 10 ^ 7) : ℝ))
        = ((-(7563428 / 10 ^ 7) : ℝ), (-(7563428 / 10 ^ 7) : ℝ)) from s5]
    rw [show (fun q => Polygon._rotate q ((360 / ((8 : ℕ) : ℝ)) * (Real.pi / 180)))
          ((-(7563428 / 10 ^ 7) : ℝ), (-(7563428 / 10 ^ 7) : ℝ))
        = ((-(10696302 / 10 ^ 7) : ℝ), (0 : ℝ)) from s6]
    rw [show (fun q => Polygon._rotate q ((360 / ((8 : ℕ) : ℝ)) * (Real.pi / 180)))
          ((-(10696302 / 10 ^ 7) : ℝ), (0 : ℝ))
        = ((-(7563428 / 10 ^ 7) : ℝ), (7563428 / 10 ^ 7 : ℝ)) from s7]
    rw [show (fun q => Polygon._rotate q ((360 / ((8 : ℕ) : ℝ)) * (Real.pi / 180)))
          ((-(7563428 / 10 ^ 7) : ℝ), (7563428 / 10 ^ 7 : ℝ))
        = ((0 : ℝ), (10696302 / 10 ^ 7 : ℝ)) from s8]
  rw [hlast, hhead, hseed, hit]
  have hd : ((0 : ℝ), (10696302 / 10 ^ 7 : ℝ)).2 + 0 - (106963031 / 100000000 + 0)
      = -(11 / 100000000) := by
    norm_num
  rw [hd, abs_neg, abs_of_pos (by norm_num : (0 : ℝ) < 11 / 100000000)]
  norm_num

/-! ### C2: rotation transforms -/

/-- C2: on every successful draw, `Rect.draw`, `Ellipse.draw` and
`Polygon.draw` attach a rotation transform `(rotation, center)` to their
primitive exactly when the passed rotation is nonzero, while the outer polygon
produced by `PolygonGroup.draw` never carries a rotation transform, for every
rotation. -/
theorem c2_rotation_transforms :
    (∀ (style : Style) (center : ℝ × ℝ) (size rotation : ℚ) (g : Rng)
        (n : DrawableNode) (g' : Rng),
        Rect.draw style center size rotation g = .ok (n, g') →
        n.rotationOf = if rotation = 0 then none else some (rotation, center))
    ∧ (∀ (style : Style) (center : ℝ × ℝ) (size rotation : ℚ) (g : Rng)
        (n : DrawableNode) (g' : Rng),
        Ellipse.draw style center size rotation g = .ok (n, g') →
        n.rotationOf = if rotation = 0 then none else some (rotation, center))
    ∧ (∀ (recur : (ℝ × ℝ) → String → Rng → Except Err (DrawableNode × Rng))
        (vc : ℕ) (ce : Option String) (style : Style) (center : ℝ × ℝ)
        (size rotation : ℚ) (g : Rng) (n : DrawableNode) (g' : Rng),
        Polygon.draw recur vc ce style center size rotation g = .ok (n, g') →
        (polyPrim n).rotationOf = if rotation = 0 then none else some (rotation, center))
    ∧ (∀ (recur : (ℝ × ℝ) → String → Rng → Except Err (DrawableNode × Rng))
        (vc : ℕ) (ve ce : Option String) (style : Style) (center : ℝ × ℝ)
        (size rotation : ℚ) (g : Rng) (n : DrawableNode) (g' : Rng),
        PolygonGroup.draw recur vc ve ce style center size rotation g = .ok (n, g') →
        (polyPrim n).rotationOf = none) := by
  refine ⟨?_, ?_, ?_, ?_⟩
  · intro style center size rotation g n g' h
    unfold Rect.draw at h
    split at h
    · simp at h
    · split at h
      · simp at h
      · simp only [Except.ok.injEq, Prod.mk.injEq] at h
        rcases h with ⟨h1, -⟩
        subst h1
        by_cases hr : rotation = 0 <;> simp [hr, DrawableNode.rotationOf]
  · intro style center size rotation g n g' h
    unfold Ellipse.draw at h
    split at h
    · simp at h
    · split at h
      · simp at h
      · simp only [Except.ok.injEq, Prod.mk.injEq] at h
        rcases h with ⟨h1, -⟩
        subst h1
        by_cases hr : rotation = 0 <;> simp [hr, DrawableNode.rotationOf]
  · intro recur vc ce style center size rotation g n g' h
    unfold Polygon.draw at h
    dsimp only at h
    rw [show (if rotation ≠ 0 then some (rotation, center) else none)
        = (if rotation = 0 then none else some (rotation, center)) by
      by_cases hr : rotation = 0 <;> simp [hr]] at h
    repeat' split at h
    all_goals first
      | (simp only [Except.ok.injEq, Prod.mk.injEq] at h
         obtain ⟨h1, -⟩ := h
         subst h1
         simp_all [polyPrim, DrawableNode.rotationOf])
      | simp at h
  · intro recur vc ve ce style center size rotation g n g' h
    unfold PolygonGroup.draw at h
    dsimp only at h
    repeat' split at h
    all_goals first
      | (simp only [Except.ok.injEq, Prod.mk.injEq] at h
         obtain ⟨h1, -⟩ := h
         subst h1
         simp_all [polyPrim, DrawableNode.rotationOf])
      | simp at h

/-- Witness for `c2_rotation_transforms`, at concrete inputs: a rect and a
polygon at rotation 45, an ellipse at rotation 0, and a polygon group at
rotation 45. -/
theorem c2_rotation_transforms_witness :
    (((nodeOf (Rect.draw st0 ((0 : ℝ), (0 : ℝ)) 2 45 g0)).getD (.group [])).rotationOf
        = if (45 : ℚ) = 0 then none else some ((45 : ℚ), ((0 : ℝ), (0 : ℝ))))
    ∧ (((nodeOf (Ellipse.draw st0 ((0 : ℝ), (0 : ℝ)) 2 0 g0)).getD (.group [])).rotationOf
        = if (0 : ℚ) = 0 then none else some ((0 : ℚ), ((0 : ℝ), (0 : ℝ))))
    ∧ ((polyPrim ((nodeOf (Polygon.draw recur0 3 none st0 ((0 : ℝ), (0 : ℝ)) 2 45 g0)).getD
          (.group []))).rotationOf
        = if (45 : ℚ) = 0 then none else some ((45 : ℚ), ((0 : ℝ), (0 : ℝ))))
    ∧ ((polyPrim ((nodeOf (PolygonGroup.draw recur0 3 none none st0 ((0 : ℝ), (0 : ℝ)) 2 45
          g0)).getD (.group []))).rotationOf = none) :=
  ⟨c2_rotation_transforms.1 st0 ((0 : ℝ), (0 : ℝ)) 2 45 g0 _ _ rfl,
   c2_rotation_transforms.2.1 st0 ((0 : ℝ), (0 : ℝ)) 2 0 g0 _ _ rfl,
   c2_rotation_transforms.2.2.1 recur0 3 none st0 ((0 : ℝ), (0 : ℝ)) 2 45 g0 _ _ rfl,
   c2_rotation_transforms.2.2.2 recur0 3 none none st0 ((0 : ℝ), (0 : ℝ)) 2 45 g0 _ _ rfl⟩

/-! ### C3: polygon center elements -/

/-- C3: a `Polygon` whose construction-time `centerElement` is `none` draws as
the bare polygon primitive; with `centerElement = some ce` it draws as a group
whose ordered children are exactly `[polygon, center component]`, the center
component being produced by the recursive `draw_component` call at the same
center; and `draw_component` looks the referenced component up in the freshly
re-parsed registry and resolves size and rotation from that component's own
style options before drawing it. -/
theorem c3_center_element_composition :
    (∀ (recur : (ℝ × ℝ) → String → Rng → Except Err (DrawableNode × Rng))
        (vc : ℕ) (style : Style) (center : ℝ × ℝ) (size rotation : ℚ) (g : Rng)
        (n : DrawableNode) (g' : Rng),
        Polygon.draw recur vc none style center size rotation g = .ok (n, g') →
        ∃ fill opacity rot,
          n = .polygon (regularPolygonVertices vc size center) fill opacity rot)
    ∧ (∀ (recur : (ℝ × ℝ) → String → Rng → Except Err (DrawableNode × Rng))
        (vc : ℕ) (ce : String) (style : Style) (center : ℝ × ℝ)
        (size rotation : ℚ) (g : Rng) (n : DrawableNode) (g' : Rng),
        Polygon.draw recur vc (some ce) style center size rotation g = .ok (n, g') →
        ∃ (fill : String) (opacity : ℚ) (rot : Option (ℚ × (ℝ × ℝ)))
            (child : DrawableNode) (g₁ g₂ : Rng),
          n = .group [.polygon (regularPolygonVertices vc size center) fill opacity rot,
                child]
          ∧ recur center ce g₁ = .ok (child, g₂))
    ∧ (∀ (cfg : Config) (fuel : ℕ) (center : ℝ × ℝ) (ce : String) (g : Rng)
        (nd : DrawableNode) (g' : Rng),
        draw_component cfg (fuel + 1) center ce g = .ok (nd, g') →
        ∃ components g₁ comp size rotation g₂ g₃,
          parse_components cfg g = .ok (components, g₁)
          ∧ dict_get components ce = some (some comp)
          ∧ random_choice comp.style.size_options g₁ = .ok (size, g₂)
          ∧ random_choice comp.style.rotation_options g₂ = .ok (rotation, g₃)
          ∧ component_draw (draw_component cfg fuel) comp center size rotation g₃
              = .ok (nd, g')) := by
  refine ⟨?_, ?_, ?_⟩
  · intro recur vc style center size rotation g n g' h
    unfold Polygon.draw at h
    dsimp only at h
    repeat' split at h
    all_goals first
      | (simp only [Except.ok.injEq, Prod.mk.injEq] at h
         obtain ⟨h1, -⟩ := h
         subst h1
         exact ⟨_, _, _, rfl⟩)
      | simp at h
  · intro recur vc ce style center size rotation g n g' h
    unfold Polygon.draw at h
    dsimp only at h
    repeat' split at h
    all_goals first
      | (simp only [Except.ok.injEq, Prod.mk.injEq] at h
         obtain ⟨h1, -⟩ := h
         subst h1
         exact ⟨_, _, _, _, _, _, rfl, by assumption⟩)
      | simp at h
  · intro cfg fuel center ce g nd g' h
    unfold draw_component at h
    repeat' split at h
    all_goals first
      | exact ⟨_, _, _, _, _, _, _, by assumption, by assumption, by assumption,
          by assumption, h⟩
      | simp at h

/-- Witness for `c3_center_element_composition` on the concrete registry
`cfgP` (a polygon `"p"` whose center element is the circle `"circle"`). -/
theorem c3_center_element_composition_witness :
    (∃ fill opacity rot,
        (nodeOf (Polygon.draw recur0 3 none st0 ((0 : ℝ), (0 : ℝ)) 2 45 g0)).getD (.group [])
          = .polygon (regularPolygonVertices 3 2 ((0 : ℝ), (0 : ℝ))) fill opacity rot)
    ∧ (∃ (fill : String) (opacity : ℚ) (rot : Option (ℚ × (ℝ × ℝ)))
          (child : DrawableNode) (g₁ g₂ : Rng),
        (nodeOf (Polygon.draw (draw_component cfgP 1) 3 (some "circle") st0
            ((0 : ℝ), (0 : ℝ)) 2 45 g0)).getD (.group [])
          = .group [.polygon (regularPolygonVertices 3 2 ((0 : ℝ), (0 : ℝ))) fill opacity rot,
              child]
          ∧ draw_component cfgP 1 ((0 : ℝ), (0 : ℝ)) "circle" g₁ = .ok (child, g₂))
    ∧ (∃ components g₁ comp size rotation g₂ g₃,
        parse_components cfgP g0 = .ok (components, g₁)
        ∧ dict_get components "p" = some (some comp)
        ∧ random_choice comp.style.size_options g₁ = .ok (size, g₂)
        ∧ random_choice comp.style.rotation_options g₂ = .ok (rotation, g₃)
        ∧ component_draw (draw_component cfgP 1) comp ((0 : ℝ), (0 : ℝ)) size rotation g₃
            = .ok ((nodeOf (draw_component cfgP (1 + 1) ((0 : ℝ), (0 : ℝ)) "p" g0)).getD
                (.group []),
              (rngOf (draw_component cfgP (1 + 1) ((0 : ℝ), (0 : ℝ)) "p" g0)).getD g0)) :=
  ⟨c3_center_element_composition.1 recur0 3 st0 ((0 : ℝ), (0 : ℝ)) 2 45 g0 _ _ rfl,
   c3_center_element_composition.2.1 (draw_component cfgP 1) 3 "circle" st0
     ((0 : ℝ), (0 : ℝ)) 2 45 g0 _ _ rfl,
   c3_center_element_composition.2.2 cfgP 1 ((0 : ℝ), (0 : ℝ)) "p" g0 _ _ rfl⟩

/-! ### C4: per-vertex circle children -/

/-- C4: when `vertexElements` is `"circle"`, `PolygonGroup.draw` appends —
after the outer polygon and the optional center element — exactly
`vertexCount` vertex children, one per vertex among the first `vertexCount`
computed vertices (the duplicate closing vertex of the `vertexCount + 1`-point
list is excluded), each obtained by `draw_component` with the hardcoded
registry id `"circle"`, drawn at that vertex (with its style independently
re-resolved inside `draw_component`). -/
theorem c4_vertex_circle_children :
    ∀ (cfg : Config) (fuel : ℕ) (vc : ℕ) (ce : Option String) (style : Style)
      (center : ℝ × ℝ) (size rotation : ℚ) (g : Rng) (n : DrawableNode) (g' : Rng),
      PolygonGroup.draw (draw_component cfg fuel) vc (some "circle") ce style center
          size rotation g = .ok (n, g') →
      (regularPolygonVertices vc size center).length = vc + 1
      ∧ ∃ (fill : String) (opacity : ℚ) (center_part vertex_children : List DrawableNode),
          n = .group (.polygon (regularPolygonVertices vc size center) fill opacity none
                :: center_part ++ vertex_children)
          ∧ vertex_children.length = vc
          ∧ ∀ i : ℕ, i < vc →
              ∃ (p : ℝ × ℝ) (c : DrawableNode) (g₁ g₂ : Rng),
                (regularPolygonVertices vc size center)[i]? = some p
                ∧ vertex_children[i]? = some c
                ∧ draw_component cfg fuel p "circle" g₁ = .ok (c, g₂) := by
  intro cfg fuel vc ce style center size rotation g n g' h
  have hlen : (regularPolygonVertices vc size center).length = vc + 1 := by
    rw [regularPolygonVertices, List.length_map, gen_points_length]
  refine ⟨hlen, ?_⟩
  unfold PolygonGroup.draw at h
  dsimp only at h
  split at h
  next => simp at h
  next fill ga hf =>
  split at h
  next => simp at h
  next opacity gb ho =>
  split at h
  next => simp at h
  next cp gc hc =>
  split at h
  next e heq => simp at h
  next vp gd heq =>
  have heq2 : draw_vertex_children (fun p g => draw_component cfg fuel p "circle" g)
      (List.take vc (regularPolygonVertices vc size center)) gc = .ok (vp, gd) := heq
  simp only [Except.ok.injEq, Prod.mk.injEq] at h
  obtain ⟨h1, -⟩ := h
  subst h1
  obtain ⟨hlen2, hall⟩ := draw_vertex_children_ok heq2
  have hvclen : vp.length = vc := by
    rw [hlen2, List.length_take, hlen]
    omega
  refine ⟨fill, opacity, cp, vp, rfl, hvclen, ?_⟩
  intro i hi
  have hitake : i < (List.take vc (regularPolygonVertices vc size center)).length := by
    rw [List.length_take, hlen]
    omega
  have hp2 : (List.take vc (regularPolygonVertices vc size center))[i]?
      = some (List.take vc (regularPolygonVertices vc size center))[i] :=
    List.getElem?_eq_getElem hitake
  obtain ⟨c, g₁, g₂, hcs, hdraw⟩ := hall i _ hp2
  refine ⟨(List.take vc (regularPolygonVertices vc size center))[i], c, g₁, g₂, ?_, hcs, hdraw⟩
  rw [← hp2, List.getElem?_take]
  simp [hi]

/-- Witness for `c4_vertex_circle_children`: a triangle polygon group whose
vertex elements are circles, drawn against the registry `cfgCircle`. -/
theorem c4_vertex_circle_children_witness :
    (regularPolygonVertices 3 2 ((0 : ℝ), (0 : ℝ))).length = 3 + 1
    ∧ ∃ (fill : String) (opacity : ℚ) (center_part vertex_children : List DrawableNode),
        (nodeOf (PolygonGroup.draw (draw_component cfgCircle 1) 3 (some "circle") none st0
            ((0 : ℝ), (0 : ℝ)) 2 45 g0)).getD (.group [])
          = .group (.polygon (regularPolygonVertices 3 2 ((0 : ℝ), (0 : ℝ))) fill opacity none
                :: center_part ++ vertex_children)
        ∧ vertex_children.length = 3
        ∧ ∀ i : ℕ, i < 3 →
            ∃ (p : ℝ × ℝ) (c : DrawableNode) (g₁ g₂ : Rng),
              (regularPolygonVertices 3 2 ((0 : ℝ), (0 : ℝ)))[i]? = some p
              ∧ vertex_children[i]? = some c
              ∧ draw_component cfgCircle 1 p "circle" g₁ = .ok (c, g₂) :=
  c4_vertex_circle_children cfgCircle 1 3 none st0 ((0 : ℝ), (0 : ℝ)) 2 45 g0 _ _ rfl

/-! ### C5: per-vertex child polygons -/

/-- C5: when `vertexElements` is `"polygon"`, `PolygonGroup.draw` appends
exactly `vertexCount` child polygons, one centered at each of the first
`vertexCount` computed vertices, each produced by `draw_child_polygon` with
the parent's own `vertexCount` and style at the same `size` and `rotation` as
the parent call; `draw_child_polygon` resolves fill and opacity from the
parent's own option sets and attaches a rotation transform about the child's
own center exactly when the rotation is nonzero. -/
theorem c5_vertex_polygon_children :
    (∀ (recur : (ℝ × ℝ) → String → Rng → Except Err (DrawableNode × Rng))
        (vc : ℕ) (ce : Option String) (style : Style) (center : ℝ × ℝ)
        (size rotation : ℚ) (g : Rng) (n : DrawableNode) (g' : Rng),
        PolygonGroup.draw recur vc (some "polygon") ce style center size rotation g
          = .ok (n, g') →
        ∃ (fill : String) (opacity : ℚ) (center_part vertex_children : List DrawableNode),
          n = .group (.polygon (regularPolygonVertices vc size center) fill opacity none
                :: center_part ++ vertex_children)
          ∧ vertex_children.length = vc
          ∧ ∀ i : ℕ, i < vc →
              ∃ (p : ℝ × ℝ) (c : DrawableNode) (g₁ g₂ : Rng),
                (regularPolygonVertices vc size center)[i]? = some p
                ∧ vertex_children[i]? = some c
                ∧ PolygonGroup.draw_child_polygon vc style p size rotation g₁ = .ok (c, g₂))
    ∧ (∀ (vc : ℕ) (style : Style) (center : ℝ × ℝ) (size rotation : ℚ) (g : Rng)
        (c : DrawableNode) (g' : Rng),
        PolygonGroup.draw_child_polygon vc style center size rotation g = .ok (c, g') →
        ∃ (fill : String) (opacity : ℚ),
          fill ∈ style.fill_options ∧ opacity ∈ style.opacity_options
          ∧ c = .polygon (regularPolygonVertices vc size center) fill opacity
              (if rotation = 0 then none else some (rotation, center))) := by
  constructor
  · intro recur vc ce style center size rotation g n g' h
    have hlen : (regularPolygonVertices vc size center).length = vc + 1 := by
      rw [regularPolygonVertices, List.length_map, gen_points_length]
    unfold PolygonGroup.draw at h
    dsimp only at h
    split at h
    next => simp at h
    next fill ga hf =>
    split at h
    next => simp at h
    next opacity gb ho =>
    split at h
    next => simp at h
    next cp gc hc =>
    split at h
    next e heq => simp at h
    next vp gd heq =>
    have heq2 : draw_vertex_children
        (fun p g => PolygonGroup.draw_child_polygon vc style p size rotation g)
        (List.take vc (regularPolygonVertices vc size center)) gc = .ok (vp, gd) := heq
    simp only [Except.ok.injEq, Prod.mk.injEq] at h
    obtain ⟨h1, -⟩ := h
    subst h1
    obtain ⟨hlen2, hall⟩ := draw_vertex_children_ok heq2
    have hvclen : vp.length = vc := by
      rw [hlen2, List.length_take, hlen]
      omega
    refine ⟨fill, opacity, cp, vp, rfl, hvclen, ?_⟩
    intro i hi
    have hitake : i < (List.take vc (regularPolygonVertices vc size center)).length := by
      rw [List.length_take, hlen]
      omega
    have hp2 : (List.take vc (regularPolygonVertices vc size center))[i]?
        = some (List.take vc (regularPolygonVertices vc size center))[i] :=
      List.getElem?_eq_getElem hitake
    obtain ⟨c, g₁, g₂, hcs, hdraw⟩ := hall i _ hp2
    refine ⟨(List.take vc (regularPolygonVertices vc size center))[i], c, g₁, g₂, ?_,
      hcs, hdraw⟩
    rw [← hp2, List.getElem?_take]
    simp [hi]
  · intro vc style center size rotation g c g' h
    unfold PolygonGroup.draw_child_polygon at h
    dsimp only at h
    rw [show (if rotation ≠ 0 then some (rotation, center) else none)
        = (if rotation = 0 then none else some (rotation, center)) by
      by_cases hr : rotation = 0 <;> simp [hr]] at h
    repeat' split at h
    all_goals first
      | (simp only [Except.ok.injEq, Prod.mk.injEq] at h
         obtain ⟨h1, -⟩ := h
         subst h1
         exact ⟨_, _, random_choice_mem (by assumption),
           random_choice_mem (by assumption), by simp [*]⟩)
      | simp at h

/-- Witness for `c5_vertex_polygon_children`: a triangle group with polygon
vertex children at rotation 45, and one child polygon drawn directly. -/
theorem c5_vertex_polygon_children_witness :
    (∃ (fill : String) (opacity : ℚ) (center_part vertex_children : List DrawableNode),
        (nodeOf (PolygonGroup.draw recur0 3 (some "polygon") none st0
            ((0 : ℝ), (0 : ℝ)) 2 45 g0)).getD (.group [])
          = .group (.polygon (regularPolygonVertices 3 2 ((0 : ℝ), (0 : ℝ))) fill opacity none
                :: center_part ++ vertex_children)
        ∧ vertex_children.length = 3
        ∧ ∀ i : ℕ, i < 3 →
            ∃ (p : ℝ × ℝ) (c : DrawableNode) (g₁ g₂ : Rng),
              (regularPolygonVertices 3 2 ((0 : ℝ), (0 : ℝ)))[i]? = some p
              ∧ vertex_children[i]? = some c
              ∧ PolygonGroup.draw_child_polygon 3 st0 p 2 45 g₁ = .ok (c, g₂))
    ∧ (∃ (fill : String) (opacity : ℚ),
        fill ∈ st0.fill_options ∧ opacity ∈ st0.opacity_options
        ∧ (nodeOf (PolygonGroup.draw_child_polygon 3 st0 ((1 : ℝ), (1 : ℝ)) 2 45 g0)).getD
            (.group [])
          = .polygon (regularPolygonVertices 3 2 ((1 : ℝ), (1 : ℝ))) fill opacity
              (if (45 : ℚ) = 0 then none else some ((45 : ℚ), ((1 : ℝ), (1 : ℝ))))) :=
  ⟨c5_vertex_polygon_children.1 recur0 3 none st0 ((0 : ℝ), (0 : ℝ)) 2 45 g0 _ _ rfl,
   c5_vertex_polygon_children.2 3 st0 ((1 : ℝ), (1 : ℝ)) 2 45 g0 _ _ rfl⟩

/-! ### C6: cyclic references -/

/-- C6 (the code at the failing input): on the self-referential configuration
`cfgCyc` — polygon `"a"` whose `center_elements` is `["a"]` — `draw_component`
exhausts every stack budget and ends in `recursionLimit` (Python's
RecursionError): the source has no cycle detection and never raises the
`CyclicReferenceError` the spec requires. -/
theorem c6_cyclic_reference_exhausts_stack :
    ∀ (fuel : ℕ) (center : ℝ × ℝ) (g : Rng),
      draw_component cfgCyc fuel center "a" g = .error .recursionLimit := by
  intro fuel
  induction fuel with
  | zero => intro center g; rfl
  | succ fuel ih =>
    intro center g
    have hdefs : cfgCyc.element_defs = [("a", ⟨"Polygon", "a", st0, [3], [], [some "a"], []⟩)] :=
      rfl
    simp [draw_component, parse_components, hdefs, build_components, create_component,
      st0, Component.style, random_choice_singleton, dict_get, component_draw,
      Polygon.draw, ih]

/-! ### C7: empty option sets -/

/-- C7 fails as stated: on `cfg7` the first requested component `"ok"` is
fully drawn (one node is produced) before the empty `fill_options` of `"bad"`
is ever resolved; the IndexError is reported during drawing, after another
primitive was already produced — not before any drawing occurs. -/
theorem c7_counterexample :
    (drawScene cfg7 1 g0).1.length = 1 ∧ (drawScene cfg7 1 g0).2 = some .emptyOptions :=
  ⟨rfl, rfl⟩

/-- C7 (amended): resolving an empty option set is a fatal IndexError, and any
error aborts the top-level draw loop at the failing component: the error is
surfaced to the caller, never swallowed or retried, and no later component is
drawn — but primitives drawn earlier in the same request already exist; the
failure is reported when the resolution is attempted, not necessarily before
all drawing. -/
theorem c7_empty_options_fatal :
    (∀ (α : Type) (g : Rng), random_choice ([] : List α) g = .error .emptyOptions)
    ∧ (∀ (cfg : Config) (fuel : ℕ) (components : List (String × Option Component))
        (ids : List String) (g : Rng),
        (drawLoop cfg fuel components ids g).2 ≠ none →
        (drawLoop cfg fuel components ids g).1.length < ids.length) := by
  constructor
  · intro α g
    rfl
  · intro cfg fuel components ids
    induction ids with
    | nil => intro g hne; exact absurd rfl hne
    | cons cid rest ih =>
      intro g hne
      rw [drawLoop] at hne ⊢
      rcases hd : drawTopComponent cfg fuel components cid g with e | ⟨node, g2⟩
      · simp
      · rw [hd] at hne
        dsimp only at hne ⊢
        have := ih g2 hne
        simpa using Nat.succ_lt_succ this

/-- Witness for `c7_empty_options_fatal` on the registry built from `cfg7`. -/
theorem c7_empty_options_fatal_witness :
    random_choice ([] : List ℕ) g0 = .error .emptyOptions
    ∧ (drawLoop cfg7 1
          [("ok", some (.circle "ok" st0)), ("bad", some (.circle "bad" stEmptyFill))]
          ["ok", "bad"] g0).1.length < (["ok", "bad"] : List String).length :=
  ⟨c7_empty_options_fatal.1 ℕ g0,
   c7_empty_options_fatal.2 cfg7 1
     [("ok", some (.circle "ok" st0)), ("bad", some (.circle "bad" stEmptyFill))]
     ["ok", "bad"] g0 (by decide)⟩

/-! ### C8: construction-time choices stable, style re-resolved -/

/-- Any successful `Polygon.draw` yields a polygon primitive with
`vertex_count + 1` points, and yields a group exactly when the construction
time `center_element` is set. -/
theorem polygon_draw_shape
    {recur : (ℝ × ℝ) → String → Rng → Except Err (DrawableNode × Rng)}
    {vc : ℕ} {ce : Option String} {style : Style} {center : ℝ × ℝ}
    {size rotation : ℚ} {g : Rng} {n : DrawableNode} {g' : Rng}
    (h : Polygon.draw recur vc ce style center size rotation g = .ok (n, g')) :
    (polyPrim n).pointCount = vc + 1
    ∧ ((∃ c, n = .group c) ↔ ce ≠ none) := by
  unfold Polygon.draw at h
  dsimp only at h
  repeat' split at h
  all_goals first
    | (simp only [Except.ok.injEq, Prod.mk.injEq] at h
       obtain ⟨h1, -⟩ := h
       subst h1
       constructor
       · simp [polyPrim, DrawableNode.pointCount, regularPolygonVertices,
           gen_points_length]
       · simp [polyPrim])
    | simp at h

/-- Any successful `PolygonGroup.draw` yields an outer polygon with
`vertex_count + 1` points. -/
theorem polygonGroup_draw_shape
    {recur : (ℝ × ℝ) → String → Rng → Except Err (DrawableNode × Rng)}
    {vc : ℕ} {ve ce : Option String} {style : Style} {center : ℝ × ℝ}
    {size rotation : ℚ} {g : Rng} {n : DrawableNode} {g' : Rng}
    (h : PolygonGroup.draw recur vc ve ce style center size rotation g = .ok (n, g')) :
    (polyPrim n).pointCount = vc + 1 := by
  unfold PolygonGroup.draw at h
  dsimp only at h
  repeat' split at h
  all_goals first
    | (simp only [Except.ok.injEq, Prod.mk.injEq] at h
       obtain ⟨h1, -⟩ := h
       subst h1
       simp [polyPrim, DrawableNode.pointCount, regularPolygonVertices,
         gen_points_length])
    | simp at h

/-- C8: the construction-time random draws (`vertex_count`, `center_element`,
`vertex_elements`) are fields of the instance, fixed at construction: any two
draw calls on the same instance produce polygons with the same
`vertex_count + 1` point count and the same bare/group shape, regardless of
the generator state; the style attributes are re-resolved on every draw call —
two draws of one instance can differ in fill.  Draw calls are pure functions
of (instance, arguments, generator): they return a fresh node and never touch
the instance (the embedding has no mutable state). -/
theorem c8_construction_stability :
    (∀ (recur : (ℝ × ℝ) → String → Rng → Except Err (DrawableNode × Rng))
        (vc : ℕ) (ce : Option String) (style : Style) (center : ℝ × ℝ)
        (size rotation : ℚ) (g₁ g₂ : Rng) (n₁ n₂ : DrawableNode) (g₁' g₂' : Rng),
        Polygon.draw recur vc ce style center size rotation g₁ = .ok (n₁, g₁') →
        Polygon.draw recur vc ce style center size rotation g₂ = .ok (n₂, g₂') →
        (polyPrim n₁).pointCount = vc + 1 ∧ (polyPrim n₂).pointCount = vc + 1
        ∧ ((∃ c, n₁ = .group c) ↔ (∃ c, n₂ = .group c)))
    ∧ (∀ (recur : (ℝ × ℝ) → String → Rng → Except Err (DrawableNode × Rng))
        (vc : ℕ) (ve ce : Option String) (style : Style) (center : ℝ × ℝ)
        (size rotation : ℚ) (g₁ g₂ : Rng) (n₁ n₂ : DrawableNode) (g₁' g₂' : Rng),
        PolygonGroup.draw recur vc ve ce style center size rotation g₁ = .ok (n₁, g₁') →
        PolygonGroup.draw recur vc ve ce style center size rotation g₂ = .ok (n₂, g₂') →
        (polyPrim n₁).pointCount = vc + 1 ∧ (polyPrim n₂).pointCount = vc + 1)
    ∧ (∃ (n₁ n₂ : DrawableNode) (g₁' g₂' : Rng),
        Polygon.draw recur0 3 none st2 ((0 : ℝ), (0 : ℝ)) 2 0 g0 = .ok (n₁, g₁')
        ∧ Polygon.draw recur0 3 none st2 ((0 : ℝ), (0 : ℝ)) 2 0 g1 = .ok (n₂, g₂')
        ∧ n₁.fillOf ≠ n₂.fillOf) := by
  refine ⟨?_, ?_, ?_⟩
  · intro recur vc ce style center size rotation g₁ g₂ n₁ n₂ g₁' g₂' h₁ h₂
    obtain ⟨hp₁, hs₁⟩ := polygon_draw_shape h₁
    obtain ⟨hp₂, hs₂⟩ := polygon_draw_shape h₂
    exact ⟨hp₁, hp₂, hs₁.trans hs₂.symm⟩
  · intro recur vc ve ce style center size rotation g₁ g₂ n₁ n₂ g₁' g₂' h₁ h₂
    exact ⟨polygonGroup_draw_shape h₁, polygonGroup_draw_shape h₂⟩
  · refine ⟨(nodeOf (Polygon.draw recur0 3 none st2 ((0 : ℝ), (0 : ℝ)) 2 0 g0)).getD
        (.group []),
      (nodeOf (Polygon.draw recur0 3 none st2 ((0 : ℝ), (0 : ℝ)) 2 0 g1)).getD (.group []),
      (rngOf (Polygon.draw recur0 3 none st2 ((0 : ℝ), (0 : ℝ)) 2 0 g0)).getD g0,
      (rngOf (Polygon.draw recur0 3 none st2 ((0 : ℝ), (0 : ℝ)) 2 0 g1)).getD g1,
      rfl, rfl, ?_⟩
    decide

/-- Witness for `c8_construction_stability`: two draws of the same polygon
instance (different generator states) and of the same polygon-group
instance. -/
theorem c8_construction_stability_witness :
    ((polyPrim ((nodeOf (Polygon.draw recur0 3 none st2 ((0 : ℝ), (0 : ℝ)) 2 0 g0)).getD
          (.group []))).pointCount = 3 + 1
      ∧ (polyPrim ((nodeOf (Polygon.draw recur0 3 none st2 ((0 : ℝ), (0 : ℝ)) 2 0 g1)).getD
          (.group []))).pointCount = 3 + 1
      ∧ ((∃ c, (nodeOf (Polygon.draw recur0 3 none st2 ((0 : ℝ), (0 : ℝ)) 2 0 g0)).getD
            (.group []) = .group c)
          ↔ (∃ c, (nodeOf (Polygon.draw recur0 3 none st2 ((0 : ℝ), (0 : ℝ)) 2 0 g1)).getD
            (.group []) = .group c)))
    ∧ ((polyPrim ((nodeOf (PolygonGroup.draw recur0 3 none none st2 ((0 : ℝ), (0 : ℝ)) 2 0
          g0)).getD (.group []))).pointCount = 3 + 1
      ∧ (polyPrim ((nodeOf (PolygonGroup.draw recur0 3 none none st2 ((0 : ℝ), (0 : ℝ)) 2 0
          g1)).getD (.group []))).pointCount = 3 + 1) :=
  ⟨c8_construction_stability.1 recur0 3 none st2 ((0 : ℝ), (0 : ℝ)) 2 0 g0 g1 _ _ _ _
     rfl rfl,
   (c8_construction_stability.2.1 recur0 3 none none st2 ((0 : ℝ), (0 : ℝ)) 2 0 g0 g1 _ _ _ _
     rfl rfl)⟩

/-! ### C9: the scene assembler -/

/-- C9: when the top-level loop succeeds it emits exactly one DrawableNode per
requested component id, in request order — the `i`-th output node is the draw
of the `i`-th requested id — and each top-level draw centers its component at
`(width/2, height/2)` with size and rotation resolved from that component's
own style options; `drawScene` runs the loop on the registry parsed from the
configuration. -/
theorem c9_scene_assembler :
    (∀ (cfg : Config) (fuel : ℕ) (components : List (String × Option Component))
        (ids : List String) (g : Rng),
        (drawLoop cfg fuel components ids g).2 = none →
        (drawLoop cfg fuel components ids g).1.length = ids.length
        ∧ ∀ (i : ℕ) (cid : String), ids[i]? = some cid →
            ∃ (node : DrawableNode) (gi gi' : Rng),
              (drawLoop cfg fuel components ids g).1[i]? = some node
              ∧ drawTopComponent cfg fuel components cid gi = .ok (node, gi'))
    ∧ (∀ (cfg : Config) (fuel : ℕ) (components : List (String × Option Component))
        (cid : String) (g : Rng) (node : DrawableNode) (g' : Rng),
        drawTopComponent cfg fuel components cid g = .ok (node, g') →
        ∃ comp size rotation g₂ g₃,
          dict_get components cid = some (some comp)
          ∧ random_choice comp.style.size_options g = .ok (size, g₂)
          ∧ random_choice comp.style.rotation_options g₂ = .ok (rotation, g₃)
          ∧ component_draw (draw_component cfg fuel) comp
              ((cfg.canvas_width : ℝ) / 2, (cfg.canvas_height : ℝ) / 2) size rotation g₃
              = .ok (node, g'))
    ∧ (∀ (cfg : Config) (fuel : ℕ) (g : Rng)
        (components : List (String × Option Component)) (g₁ : Rng),
        parse_components cfg g = .ok (components, g₁) →
        drawScene cfg fuel g = drawLoop cfg fuel components cfg.component_to_draw g₁) := by
  refine ⟨?_, ?_, ?_⟩
  · intro cfg fuel components ids
    induction ids with
    | nil =>
      intro g _
      exact ⟨rfl, by intro i cid hcid; simp at hcid⟩
    | cons cid rest ih =>
      intro g hnone
      rcases hd : drawTopComponent cfg fuel components cid g with e | ⟨node, g2⟩
      · rw [drawLoop, hd] at hnone
        simp at hnone
      · rw [drawLoop, hd] at hnone ⊢
        dsimp only at hnone ⊢
        obtain ⟨hlen, hall⟩ := ih g2 hnone
        refine ⟨by simp [hlen], ?_⟩
        intro i c hc
        match i with
        | 0 =>
          simp only [List.getElem?_cons_zero, Option.some.injEq] at hc
          subst hc
          exact ⟨node, g, g2, by simp, hd⟩
        | i + 1 =>
          rw [List.getElem?_cons_succ] at hc
          obtain ⟨nd, gi, gi', hnd, hdr⟩ := hall i c hc
          exact ⟨nd, gi, gi', by simpa using hnd, hdr⟩
  · intro cfg fuel components cid g node g' h
    unfold drawTopComponent at h
    dsimp only at h
    repeat' split at h
    all_goals first
      | exact ⟨_, _, _, _, _, by assumption, by assumption, by assumption, h⟩
      | simp at h
  · intro cfg fuel g components g₁ hp
    unfold drawScene
    rw [hp]

/-- Witness for `c9_scene_assembler` on `cfg9` (two circles, canvas
`100 × 60`). -/
theorem c9_scene_assembler_witness :
    ((drawLoop cfg9 1 [("a", some (.circle "a" st0)), ("b", some (.circle "b" st2))]
        ["a", "b"] g0).1.length = (["a", "b"] : List String).length
      ∧ ∀ (i : ℕ) (cid : String), (["a", "b"] : List String)[i]? = some cid →
          ∃ (node : DrawableNode) (gi gi' : Rng),
            (drawLoop cfg9 1 [("a", some (.circle "a" st0)), ("b", some (.circle "b" st2))]
              ["a", "b"] g0).1[i]? = some node
            ∧ drawTopComponent cfg9 1
                [("a", some (.circle "a" st0)), ("b", some (.circle "b" st2))] cid gi
                = .ok (node, gi'))
    ∧ (∃ comp size rotation g₂ g₃,
        dict_get [("a", some (.circle "a" st0)), ("b", some (.circle "b" st2))] "a"
          = some (some comp)
        ∧ random_choice comp.style.size_options g0 = .ok (size, g₂)
        ∧ random_choice comp.style.rotation_options g₂ = .ok (rotation, g₃)
        ∧ component_draw (draw_component cfg9 1) comp
            ((cfg9.canvas_width : ℝ) / 2, (cfg9.canvas_height : ℝ) / 2) size rotation g₃
            = .ok ((nodeOf (drawTopComponent cfg9 1
                  [("a", some (.circle "a" st0)), ("b", some (.circle "b" st2))] "a"
                  g0)).getD (.group []),
                (rngOf (drawTopComponent cfg9 1
                  [("a", some (.circle "a" st0)), ("b", some (.circle "b" st2))] "a"
                  g0)).getD g0))
    ∧ drawScene cfg9 1 g0
        = drawLoop cfg9 1 [("a", some (.circle "a" st0)), ("b", some (.circle "b" st2))]
            cfg9.component_to_draw g0 :=
  ⟨c9_scene_assembler.1 cfg9 1
     [("a", some (.circle "a" st0)), ("b", some (.circle "b" st2))] ["a", "b"] g0 rfl,
   c9_scene_assembler.2.1 cfg9 1
     [("a", some (.circle "a" st0)), ("b", some (.circle "b" st2))] "a" g0 _ _ rfl,
   c9_scene_assembler.2.2 cfg9 1 g0
     [("a", some (.circle "a" st0)), ("b", some (.circle "b" st2))] g0 rfl⟩

/-! ### C10: rotation is resolved before dispatch, even for circles -/

/-- C10: every caller (`draw_component` and the top-level loop) resolves a
size and a rotation from the component's own `size_options` and
`rotation_options` before dispatching to the variant's `draw`; `Circle.draw`
ignores the rotation entirely, yet a circle whose `rotation_options` is empty
still fails to draw — both through `draw_component` and through the whole
scene assembly — because the unused rotation is resolved first. -/
theorem c10_rotation_resolved_for_circle :
    (∀ (style : Style) (center : ℝ × ℝ) (size r₁ r₂ : ℚ) (g : Rng),
        Circle.draw style center size r₁ g = Circle.draw style center size r₂ g)
    ∧ (∀ (cfg : Config) (fuel : ℕ) (center : ℝ × ℝ) (ce : String) (g : Rng)
        (components : List (String × Option Component)) (g₁ : Rng) (comp : Component)
        (size : ℚ) (g₂ : Rng),
        parse_components cfg g = .ok (components, g₁) →
        dict_get components ce = some (some comp) →
        random_choice comp.style.size_options g₁ = .ok (size, g₂) →
        comp.style.rotation_options = [] →
        draw_component cfg (fuel + 1) center ce g = .error .emptyOptions)
    ∧ (∀ (fuel : ℕ) (g : Rng), drawScene cfg10 fuel g = ([], some .emptyOptions)) := by
  refine ⟨?_, ?_, ?_⟩
  · intro style center size r₁ r₂ g
    rfl
  · intro cfg fuel center ce g components g₁ comp size g₂ hp hd hs hrot
    unfold draw_component
    rw [hp]
    dsimp only
    rw [hd]
    dsimp only
    rw [hs]
    dsimp only
    rw [hrot]
    rfl
  · intro fuel g
    have hdefs : cfg10.element_defs = [("c", ⟨"Circle", "c", stNoRotation, [], [], [], []⟩)] :=
      rfl
    have hdraw : cfg10.component_to_draw = ["c"] := rfl
    simp [drawScene, parse_components, hdefs, hdraw, build_components, create_component,
      stNoRotation, Component.style, random_choice_singleton, dict_get, drawLoop,
      drawTopComponent, random_choice_nil]

/-- Witness for `c10_rotation_resolved_for_circle`: the circle of `cfg10`
(whose `rotation_options` is empty) fails to draw even though circles ignore
rotation. -/
theorem c10_rotation_resolved_for_circle_witness :
    Circle.draw st0 ((0 : ℝ), (0 : ℝ)) 2 45 g0 = Circle.draw st0 ((0 : ℝ), (0 : ℝ)) 2 0 g0
    ∧ draw_component cfg10 (0 + 1) ((0 : ℝ), (0 : ℝ)) "c" g0 = .error .emptyOptions
    ∧ drawScene cfg10 2 g1 = ([], some .emptyOptions) :=
  ⟨c10_rotation_resolved_for_circle.1 st0 ((0 : ℝ), (0 : ℝ)) 2 45 0 g0,
   c10_rotation_resolved_for_circle.2.1 cfg10 0 ((0 : ℝ), (0 : ℝ)) "c" g0
     [("c", some (.circle "c" stNoRotation))] g0 (.circle "c" stNoRotation) 2
     ⟨g0.seq, g0.idx + 1⟩ rfl rfl rfl rfl,
   c10_rotation_resolved_for_circle.2.2 2 g1⟩

end Plurana
